import Mathlib

/-!
Shallow embedding of the deterministic computation and matching layer of the
cycling-trip-planner repository: the fuzzy entity resolver (`mock_data.py`),
the accommodation-schedule calculator (`calculate_accommodation_schedule.py`),
the budget aggregator (`estimate_budget.py`) and the elevation profiler
(`get_elevation_profile.py`), together with theorems settling the frozen
claims about them.

Python floats are modelled as `ℚ`, Python ints as `Int` (or `Nat` where the
source value is provably non-negative), Python dicts as association lists,
and the sources' structured-dict-or-string return convention as `ToolResult`.
Dataset loading (`load_routes` etc.) is I/O and is modelled by passing the
dataset lists as explicit parameters.
-/

namespace CyclingPlanner

/-- The `dict | str` dual return convention used by every tool: a structured
success payload or a descriptive diagnostic string. -/
inductive ToolResult (α : Type) where
  | ok (value : α)
  | err (message : String)
deriving DecidableEq, Repr

instance {α : Type} : Inhabited (ToolResult α) := ⟨.err ""⟩

/-! ## String normalization and fuzzy similarity (`mock_data.py`) -/

/-- Python's `\s` whitespace class (space, tab, newline, carriage return,
vertical tab, form feed). -/
def pyWhitespace (c : Char) : Bool :=
  c = ' ' || c = '\t' || c = '\n' || c = '\r' || c = '\x0b' || c = '\x0c'

/-- Python `str.lower()` (ASCII case folding), defined over the character
list so that it evaluates by kernel reduction. -/
def pyLower (s : String) : String :=
  ⟨s.data.map Char.toLower⟩

/-- Python `str.strip()`: drop whitespace from both ends. -/
def pyStrip (s : String) : String :=
  ⟨((s.data.dropWhile pyWhitespace).reverse.dropWhile pyWhitespace).reverse⟩

/-- `normalize_location`: lowercase then strip surrounding whitespace
(`location.lower().strip()`). -/
def normalize_location (location : String) : String :=
  pyStrip (pyLower location)

/-- Fuel-driven helper for the longest-common-subsequence length, structurally
recursive on the fuel so that it evaluates by kernel reduction. -/
def lcsAux : Nat → List Char → List Char → Nat
  | 0, _, _ => 0
  | _ + 1, [], _ => 0
  | _ + 1, _ :: _, [] => 0
  | fuel + 1, a :: as, b :: bs =>
    if a = b then lcsAux fuel as bs + 1
    else max (lcsAux fuel (a :: as) bs) (lcsAux fuel as (b :: bs))

/-- Length of a longest common subsequence of two character lists.  It
underlies `rapidfuzz.fuzz.ratio`, whose normalized indel distance between `a`
and `b` is `|a| + |b| - 2 * lcsLen a b`. -/
def lcsLen (xs ys : List Char) : Nat :=
  lcsAux (xs.length + ys.length) xs ys

/-- `rapidfuzz.fuzz.ratio` on already-normalized strings: the normalized indel
similarity scaled to 0–100, i.e. `100 * (2 * lcs) / (|a| + |b|)`; two empty
strings score 100. -/
def fuzzScore (a b : String) : ℚ :=
  if a.data.length + b.data.length = 0 then 100
  else 100 * (2 * (lcsLen a.data b.data : ℚ))
    / ((a.data.length : ℚ) + (b.data.length : ℚ))

/-! ## Routes and fuzzy route resolution (`mock_data.py`) -/

/-- A waypoint of a route: name plus cumulative distance from the start. -/
structure Waypoint where
  name : String
  km : ℚ
deriving DecidableEq, Repr, Inhabited

/-- A route record from the routes dataset. -/
structure Route where
  start_point : String
  end_point : String
  distance_km : ℚ
  waypoints : List Waypoint
deriving DecidableEq, Repr, Inhabited

/-- Minimum similarity threshold for fuzzy matching (70%). -/
def SIMILARITY_THRESHOLD : ℚ := 70

/-- Similarity of the query start point to a route's start point
(both normalized), as computed inside `find_route_fuzzy`. -/
def startSim (qs : String) (r : Route) : ℚ :=
  fuzzScore (normalize_location qs) (normalize_location r.start_point)

/-- Similarity of the query end point to a route's end point. -/
def endSim (qe : String) (r : Route) : ℚ :=
  fuzzScore (normalize_location qe) (normalize_location r.end_point)

/-- Average of the two endpoint similarities. -/
def avgSim (qs qe : String) (r : Route) : ℚ :=
  (startSim qs r + endSim qe r) / 2

/-- Both endpoint similarities reach the threshold. -/
def qualifiesRoute (qs qe : String) (r : Route) : Bool :=
  decide (SIMILARITY_THRESHOLD ≤ startSim qs r) &&
    decide (SIMILARITY_THRESHOLD ≤ endSim qe r)

/-- The scanning loop of `find_route_fuzzy`: keeps the current best match and
best average score, replacing them only on a strict improvement by a
qualifying route. -/
def findRouteAux (qs qe : String) : List Route → Option Route → ℚ → Option Route
  | [], best, _ => best
  | r :: rest, best, bestScore =>
    if qualifiesRoute qs qe r && decide (bestScore < avgSim qs qe r) then
      findRouteAux qs qe rest (some r) (avgSim qs qe r)
    else
      findRouteAux qs qe rest best bestScore

/-- `find_route_fuzzy`: best fuzzy match over the routes dataset, starting
from no match and best score 0. -/
def find_route_fuzzy (start_point end_point : String) (routes : List Route) : Option Route :=
  findRouteAux start_point end_point routes none 0

/-- `r` attains the maximum average similarity among the candidates `l`. -/
def isBestAmong (qs qe : String) (l : List Route) (r : Route) : Bool :=
  l.all (fun y => decide (avgSim qs qe y ≤ avgSim qs qe r))

/-- A route qualifies, strictly beats score `s`, and is at least as good as
every qualifying route of `l`: the loop's selection criterion. -/
def leadBeats (qs qe : String) (s : ℚ) (l : List Route) (r : Route) : Bool :=
  qualifiesRoute qs qe r && decide (s < avgSim qs qe r) &&
    l.all (fun y => !(qualifiesRoute qs qe y) || decide (avgSim qs qe y ≤ avgSim qs qe r))

theorem lcsAux_fuel_irrel : ∀ (f g : Nat) (xs ys : List Char),
    xs.length + ys.length ≤ f → xs.length + ys.length ≤ g →
    lcsAux f xs ys = lcsAux g xs ys := by
  intro f
  induction f with
  | zero =>
    intro g xs ys hf _
    have hx : xs = [] := List.length_eq_zero.mp (by omega)
    subst hx
    cases g <;> simp [lcsAux]
  | succ f ih =>
    intro g xs ys hf hg
    cases xs with
    | nil => cases g <;> simp [lcsAux]
    | cons a as =>
      cases ys with
      | nil => cases g <;> simp [lcsAux]
      | cons b bs =>
        cases g with
        | zero => simp [List.length_cons] at hg
        | succ g =>
          simp only [List.length_cons] at hf hg
          simp only [lcsAux]
          by_cases hab : a = b
          · rw [if_pos hab, if_pos hab,
              ih g as bs (by omega) (by omega)]
          · rw [if_neg hab, if_neg hab,
              ih g (a :: as) bs (by simp only [List.length_cons]; omega)
                (by simp only [List.length_cons]; omega),
              ih g as (b :: bs) (by simp only [List.length_cons]; omega)
                (by simp only [List.length_cons]; omega)]

theorem lcsLen_eq_lcsAux (f : Nat) (xs ys : List Char)
    (hf : xs.length + ys.length ≤ f) : lcsLen xs ys = lcsAux f xs ys :=
  lcsAux_fuel_irrel _ f xs ys le_rfl hf

theorem lcsLen_nil_left (ys : List Char) : lcsLen [] ys = 0 := by
  unfold lcsLen
  cases ys <;> simp [lcsAux]

theorem lcsLen_nil_right (xs : List Char) : lcsLen xs [] = 0 := by
  unfold lcsLen
  cases xs <;> simp [lcsAux]

/-- The standard LCS recurrence, recovered from the fuel implementation. -/
theorem lcsLen_cons_cons (a b : Char) (as bs : List Char) :
    lcsLen (a :: as) (b :: bs) =
      if a = b then lcsLen as bs + 1
      else max (lcsLen (a :: as) bs) (lcsLen as (b :: bs)) := by
  show lcsAux ((a :: as).length + (b :: bs).length) (a :: as) (b :: bs) = _
  simp only [List.length_cons]
  have : as.length + 1 + (bs.length + 1) = (as.length + (bs.length + 1)) + 1 := by omega
  rw [this]
  simp only [lcsAux]
  by_cases hab : a = b
  · rw [if_pos hab, if_pos hab,
      ← lcsLen_eq_lcsAux _ as bs (by omega)]
  · rw [if_neg hab, if_neg hab,
      ← lcsLen_eq_lcsAux _ (a :: as) bs (by simp only [List.length_cons]; omega),
      ← lcsLen_eq_lcsAux _ as (b :: bs) (by simp only [List.length_cons]; omega)]

theorem lcsLen_le_left : ∀ xs ys : List Char, lcsLen xs ys ≤ xs.length
  | [], ys => by simp [lcsLen_nil_left]
  | _ :: _, [] => by simp [lcsLen_nil_right]
  | a :: as, b :: bs => by
    rw [lcsLen_cons_cons]
    by_cases hab : a = b
    · simpa [hab] using lcsLen_le_left as bs
    · simp only [hab, if_false, max_le_iff, List.length_cons]
      exact ⟨lcsLen_le_left (a :: as) bs,
        Nat.le_succ_of_le (lcsLen_le_left as (b :: bs))⟩
termination_by xs ys => xs.length + ys.length
decreasing_by
  all_goals simp only [List.length_cons]
  all_goals omega

theorem lcsLen_le_right : ∀ xs ys : List Char, lcsLen xs ys ≤ ys.length
  | [], ys => by simp [lcsLen_nil_left]
  | _ :: _, [] => by simp [lcsLen_nil_right]
  | a :: as, b :: bs => by
    rw [lcsLen_cons_cons]
    by_cases hab : a = b
    · simpa [hab] using lcsLen_le_right as bs
    · simp only [hab, if_false, max_le_iff, List.length_cons]
      exact ⟨Nat.le_succ_of_le (lcsLen_le_right (a :: as) bs),
        lcsLen_le_right as (b :: bs)⟩
termination_by xs ys => xs.length + ys.length
decreasing_by
  all_goals simp only [List.length_cons]
  all_goals omega

theorem lcsLen_self : ∀ xs : List Char, lcsLen xs xs = xs.length
  | [] => lcsLen_nil_left []
  | a :: as => by
    rw [lcsLen_cons_cons]
    simp [lcsLen_self as]

/-- If the longest common subsequence is as long as both lists, the lists are
equal. -/
theorem eq_of_lcsLen_eq_length : ∀ xs ys : List Char,
    lcsLen xs ys = xs.length → xs.length = ys.length → xs = ys
  | [], ys, _, hlen => by
    cases ys with
    | nil => rfl
    | cons b bs => simp at hlen
  | a :: as, [], hl, hlen => by simp at hlen
  | a :: as, b :: bs, hl, hlen => by
    rw [lcsLen_cons_cons] at hl
    by_cases hab : a = b
    · subst hab
      rw [if_pos rfl] at hl
      simp only [List.length_cons, Nat.succ.injEq] at hl hlen
      rw [eq_of_lcsLen_eq_length as bs hl hlen]
    · exfalso
      rw [if_neg hab] at hl
      have h1 : lcsLen (a :: as) bs ≤ bs.length := lcsLen_le_right (a :: as) bs
      have h2 : lcsLen as (b :: bs) ≤ as.length := lcsLen_le_left as (b :: bs)
      simp only [List.length_cons] at hl hlen
      omega

theorem fuzzScore_self (a : String) : fuzzScore a a = 100 := by
  rw [fuzzScore]
  by_cases h : a.data.length + a.data.length = 0
  · rw [if_pos h]
  · rw [if_neg h]
    have hne : ((a.data.length : ℚ) + (a.data.length : ℚ)) ≠ 0 := by
      intro hc
      apply h
      have h2 : ((a.data.length + a.data.length : ℕ) : ℚ) = 0 := by push_cast; linarith
      exact_mod_cast h2
    rw [lcsLen_self, div_eq_iff hne]
    ring

theorem fuzzScore_le_100 (a b : String) : fuzzScore a b ≤ 100 := by
  rw [fuzzScore]
  by_cases h : a.data.length + b.data.length = 0
  · rw [if_pos h]
  · rw [if_neg h]
    have hpos : (0 : ℚ) < (a.data.length : ℚ) + (b.data.length : ℚ) := by
      have h2 : 0 < a.data.length + b.data.length := Nat.pos_of_ne_zero h
      exact_mod_cast h2
    rw [div_le_iff₀ hpos]
    have h2 : lcsLen a.data b.data + lcsLen a.data b.data ≤ a.data.length + b.data.length :=
      Nat.add_le_add (lcsLen_le_left a.data b.data) (lcsLen_le_right a.data b.data)
    have h3 : (((lcsLen a.data b.data) + (lcsLen a.data b.data) : ℕ) : ℚ)
        ≤ ((a.data.length + b.data.length : ℕ) : ℚ) := by exact_mod_cast h2
    push_cast at h3
    nlinarith

theorem fuzzScore_nonneg (a b : String) : 0 ≤ fuzzScore a b := by
  rw [fuzzScore]
  by_cases h : a.data.length + b.data.length = 0
  · rw [if_pos h]; norm_num
  · rw [if_neg h]
    have hpos : (0 : ℚ) < (a.data.length : ℚ) + (b.data.length : ℚ) := by
      have h2 : 0 < a.data.length + b.data.length := Nat.pos_of_ne_zero h
      exact_mod_cast h2
    positivity

/-- A score of 100 forces the two strings to be equal. -/
theorem eq_of_fuzzScore_eq_100 (a b : String) (h : fuzzScore a b = 100) : a = b := by
  rw [fuzzScore] at h
  by_cases h0 : a.data.length + b.data.length = 0
  · have ha : a.data = [] := List.length_eq_zero.mp (by omega)
    have hb : b.data = [] := List.length_eq_zero.mp (by omega)
    cases a; cases b
    simp_all
  · rw [if_neg h0] at h
    have hpos : (0 : ℚ) < (a.data.length : ℚ) + (b.data.length : ℚ) := by
      have h2 : 0 < a.data.length + b.data.length := Nat.pos_of_ne_zero h0
      exact_mod_cast h2
    rw [div_eq_iff (ne_of_gt hpos)] at h
    have hq : (2 * (lcsLen a.data b.data : ℚ)) = (a.data.length : ℚ) + (b.data.length : ℚ) := by
      nlinarith
    have hnat : 2 * lcsLen a.data b.data = a.data.length + b.data.length := by
      exact_mod_cast hq
    have h1 : lcsLen a.data b.data ≤ a.data.length := lcsLen_le_left a.data b.data
    have h2 : lcsLen a.data b.data ≤ b.data.length := lcsLen_le_right a.data b.data
    have hla : lcsLen a.data b.data = a.data.length := by omega
    have hlen : a.data.length = b.data.length := by omega
    have := eq_of_lcsLen_eq_length a.data b.data hla hlen
    cases a; cases b
    simp_all

/-! ## Pattern parsing (`calculate_accommodation_schedule.py`) -/

/-- Consume the literal `lit` from the front of `s`; `none` if it does not
match. -/
def dropLit : List Char → List Char → Option (List Char)
  | [], s => some s
  | _ :: _, [] => none
  | c :: cs, x :: xs => if x = c then dropLit cs xs else none

/-- Consume one or more characters satisfying `p` (greedy), returning the
consumed characters and the rest; `none` if the first character fails `p`. -/
def takeWhile1 (p : Char → Bool) (s : List Char) : Option (List Char × List Char) :=
  match s.takeWhile p with
  | [] => none
  | pre => some (pre, s.dropWhile p)

/-- `int()` on a non-empty digit string. -/
def digitsToNat (ds : List Char) : Nat :=
  ds.foldl (fun n c => n * 10 + (c.toNat - 48)) 0

/-- The regex alternation `(?:th|rd|st|nd)`: the four suffixes start with
distinct characters, so at most one alternative can consume. -/
def ordSuffixDrop (s : List Char) : Option (List Char) :=
  match dropLit "th".data s with
  | some r => some r
  | none =>
    match dropLit "rd".data s with
    | some r => some r
    | none =>
      match dropLit "st".data s with
      | some r => some r
      | none => dropLit "nd".data s

/-- The regex tail `\s+night`: one or more whitespace then the literal
`night`. -/
def matchSpaceNight (s : List Char) : Option Unit :=
  match takeWhile1 pyWhitespace s with
  | none => none
  | some (_, s1) =>
    match dropLit "night".data s1 with
    | none => none
    | some _ => some ()

/-- Attempt the pattern `every\s+(\d+)(?:th|rd|st|nd)?\s+night` at the start
of `s` (with `allowOrdinal := true`), returning the captured integer.  The
greedy digit run and whitespace runs are forced (the following characters
cannot extend them), so the only backtracking point is the optional ordinal
suffix, tried with the suffix first as the regex engine does.  With
`allowOrdinal := false` this is the second pattern `every\s+(\d+)\s+nights?`
(the optional trailing `s` does not affect whether a match exists at a given
position, nor the captured group). -/
def matchEveryAt (allowOrdinal : Bool) (s : List Char) : Option Nat :=
  match dropLit "every".data s with
  | none => none
  | some s1 =>
    match takeWhile1 pyWhitespace s1 with
    | none => none
    | some (_, s2) =>
      match takeWhile1 Char.isDigit s2 with
      | none => none
      | some (ds, s3) =>
        let n := digitsToNat ds
        if allowOrdinal then
          match ordSuffixDrop s3 with
          | some s4 =>
            match matchSpaceNight s4 with
            | some _ => some n
            | none => (matchSpaceNight s3).map (fun _ => n)
          | none => (matchSpaceNight s3).map (fun _ => n)
        else (matchSpaceNight s3).map (fun _ => n)

/-- `re.search`: try the pattern at each start position, left to right. -/
def searchEvery (allowOrdinal : Bool) : List Char → Option Nat
  | [] => matchEveryAt allowOrdinal []
  | c :: rest =>
    match matchEveryAt allowOrdinal (c :: rest) with
    | some n => some n
    | none => searchEvery allowOrdinal rest

/-- `parse_pattern`: lowercase the pattern, try the ordinal form first, then
the plain `every N nights` form. -/
def parse_pattern (pattern : String) : Option Nat :=
  match searchEvery true (pyLower pattern).data with
  | some n => some n
  | none => searchEvery false (pyLower pattern).data

/-- Output schema of `calculate_accommodation_schedule`; the Python `dict`
keyed by night number, built in night order 1..n, is the association list
`schedule`. -/
structure CalculateAccommodationScheduleOutput where
  total_nights : Int
  schedule : List (Nat × String)
  special_nights : List Nat
  pattern_interpretation : String
deriving DecidableEq, Repr, Inhabited

/-- `calculate_accommodation_schedule`.  The parsed period is a `Nat` (the
regex captures a digit run), so the source's `period <= 0` check is `period
≤ 0`.  `range(period, total_nights + 1, period)` enumerates the positive
multiples of `period` up to `total_nights`; the comprehension's redundant
`night <= total_nights` filter is kept. -/
def calculate_accommodation_schedule (total_nights : Int)
    (preference_pattern accommodation_type default_type : String) :
    ToolResult CalculateAccommodationScheduleOutput :=
  match parse_pattern preference_pattern with
  | none =>
    .err ("Could not parse pattern \x27" ++ preference_pattern ++ "\x27. " ++
      "Expected format: \x27every Xth night\x27 or \x27every X nights\x27 " ++
      "(e.g., \x27every 4th night\x27).")
  | some period =>
    if period ≤ 0 then .err s!"Period must be positive, got {period}"
    else if total_nights ≤ 0 then
      .err s!"Total nights must be positive, got {total_nights}"
    else
      let n := total_nights.toNat
      let special_nights :=
        ((List.range (n / period)).map (fun k => (k + 1) * period)).filter
          (fun night => night ≤ n)
      let schedule := (List.range n).map (fun i =>
        (i + 1,
          if special_nights.contains (i + 1) then accommodation_type else default_type))
      let nights_str := String.intercalate ", " (special_nights.map toString)
      let pattern_interpretation :=
        if special_nights.isEmpty then
          s!"Pattern \x27every {period}th night\x27 results in no special nights " ++
            s!"for a {total_nights}-night trip. Using {default_type} for all nights."
        else
          s!"Using {accommodation_type} on nights {nights_str} " ++
            s!"(every {period}th night), {default_type} on all other nights."
      .ok ⟨total_nights, schedule, special_nights, pattern_interpretation⟩

/-! ## Constants (`constants.py`) and currency conversion (`estimate_budget.py`) -/

/-- Static exchange-rate table: rate units per 1 EUR. -/
def CURRENCY_RATES : List (String × ℚ) :=
  [("EUR", 1), ("USD", 11/10), ("GBP", 85/100), ("DKK", 745/100), ("CZK", 25)]

/-- Python dict lookup on a string-keyed association list. -/
def lookupStr {β : Type} : List (String × β) → String → Option β
  | [], _ => none
  | p :: ps, k => if p.1 = k then some p.2 else lookupStr ps k

def DAILY_FOOD_COST : ℚ := 40
def BIKE_MAINTENANCE_PER_KM : ℚ := 1/10
def MISCELLANEOUS_PER_DAY : ℚ := 15
def DEFAULT_ACCOMMODATION_PRICE : ℚ := 25
def CAMPING_PRICE : ℚ := 15
def HOSTEL_PRICE : ℚ := 25
def HOTEL_PRICE : ℚ := 80

/-- `convert_to_eur`: EUR passes through; known currencies divide by their
rate (the inner `elif` chain over the rate table); unknown currencies pass
through unchanged. -/
def convert_to_eur (amount : ℚ) (currency : String) : ℚ :=
  if currency = "EUR" then amount
  else if (lookupStr CURRENCY_RATES currency).isSome then
    if currency = "USD" then amount / ((lookupStr CURRENCY_RATES "USD").getD 1)
    else if currency = "GBP" then amount / ((lookupStr CURRENCY_RATES "GBP").getD 1)
    else if currency = "DKK" then amount / ((lookupStr CURRENCY_RATES "DKK").getD 1)
    else if currency = "CZK" then amount / ((lookupStr CURRENCY_RATES "CZK").getD 1)
    else amount
  else amount

/-- `convert_eur_to_usd`: multiply by the USD rate. -/
def convert_eur_to_usd (amount_eur : ℚ) : ℚ :=
  amount_eur * ((lookupStr CURRENCY_RATES "USD").getD 1)

/-! ## Accommodation search (`mock_data.py: find_accommodations`) -/

/-- An accommodation record from the accommodations dataset. -/
structure Accommodation where
  name : String
  type : String
  location : String
  price_per_night : ℚ
  currency : String
deriving DecidableEq, Repr, Inhabited

/-- The `type_mapping` synonym table with default `"all"` for unrecognized
filters. -/
def type_mapping (normalized_type : String) : String :=
  if normalized_type = "camping" then "camping"
  else if normalized_type = "camp" then "camping"
  else if normalized_type = "hostel" then "hostel"
  else if normalized_type = "hostels" then "hostel"
  else if normalized_type = "hotel" then "hotel"
  else if normalized_type = "hotels" then "hotel"
  else if normalized_type = "all" then "all"
  else "all"

/-- Location similarity of a candidate against the (already normalized)
query location. -/
def locationSim (normalized_location : String) (a : Accommodation) : ℚ :=
  fuzzScore normalized_location (normalize_location a.location)

/-- A candidate passes the threshold and the type filter. -/
def accMatches (normalized_location filter_type : String) (a : Accommodation) : Bool :=
  decide (SIMILARITY_THRESHOLD ≤ locationSim normalized_location a) &&
    (filter_type == "all" || pyLower a.type == filter_type)

/-- The `location_similarities` dict update: record the similarity for a
location key if absent, or raise it if the new value is strictly larger. -/
def insertMaxSim (d : List (String × ℚ)) (k : String) (v : ℚ) : List (String × ℚ) :=
  match lookupStr d k with
  | none => d ++ [(k, v)]
  | some w => if w < v then d.map (fun p => if p.1 = k then (k, v) else p) else d

/-- The `location_similarities` dict after the scanning loop: one entry per
normalized location of a matching candidate, holding the maximum similarity
seen for that location. -/
def simDict (normalized_location filter_type : String)
    (accommodations : List Accommodation) : List (String × ℚ) :=
  accommodations.foldl
    (fun d a =>
      if accMatches normalized_location filter_type a then
        insertMaxSim d (normalize_location a.location)
          (locationSim normalized_location a)
      else d) []

/-- The sort key of `find_accommodations`
(`(-location_similarities.get(normalized_location, 0), price_per_night)`),
as a `≤` relation: higher similarity first, then lower price. -/
def accSortLe (normalized_location : String) (d : List (String × ℚ))
    (a b : Accommodation) : Prop :=
  (lookupStr d (normalize_location b.location)).getD 0 <
      (lookupStr d (normalize_location a.location)).getD 0 ∨
    ((lookupStr d (normalize_location a.location)).getD 0 =
        (lookupStr d (normalize_location b.location)).getD 0 ∧
      a.price_per_night ≤ b.price_per_night)

instance (normalized_location : String) (d : List (String × ℚ)) :
    DecidableRel (accSortLe normalized_location d) := fun a b => by
  unfold accSortLe
  infer_instance

/-- `find_accommodations`: filter by fuzzy location similarity and type,
then sort by descending location similarity and ascending price.  Python's
`list.sort` is a stable sort with respect to a total preorder key, and a
stable sort is uniquely determined by the key, so it is modelled by
insertion sort with the key relation. -/
def find_accommodations (location accommodation_type : String)
    (accommodations : List Accommodation) : List Accommodation :=
  let normalized_location := normalize_location location
  let filter_type := type_mapping (pyStrip (pyLower accommodation_type))
  let matching := accommodations.filter (accMatches normalized_location filter_type)
  let sims := simDict normalized_location filter_type accommodations
  List.insertionSort (accSortLe normalized_location sims) matching

/-! ## Budget estimation (`estimate_budget.py`) -/

/-- Python string truthiness for optional string arguments: present and
non-empty. -/
def truthy : Option String → Bool
  | none => false
  | some s => !(s == "")

/-- `min(..., key=price)`: Python's `min` keeps the first element attaining
the minimum, so replace only on strict decrease. -/
def minByPrice (x : Accommodation) (xs : List Accommodation) : Accommodation :=
  xs.foldl (fun best y => if y.price_per_night < best.price_per_night then y else best) x

/-- `get_accommodation_price`: `(price, currency)` of the cheapest
accommodation overall (for mixed/all/absent preference, or when nothing
matches the preferred type), or of the cheapest accommodation of the
preferred type. -/
def get_accommodation_price (accommodations : List Accommodation)
    (accommodation_preference : Option String) : Option (ℚ × String) :=
  match accommodations with
  | [] => none
  | a :: rest =>
    let pref := if truthy accommodation_preference then
        pyStrip (pyLower (accommodation_preference.getD ""))
      else "mixed"
    if pref == "mixed" || pref == "all" || !truthy accommodation_preference then
      let c := minByPrice a rest
      some (c.price_per_night, c.currency)
    else
      match (a :: rest).filter (fun acc => pyLower acc.type == pref) with
      | [] =>
        let c := minByPrice a rest
        some (c.price_per_night, c.currency)
      | f :: fs =>
        let c := minByPrice f fs
        some (c.price_per_night, c.currency)

/-- A visa rule record.  Fields not used by the budget tool are omitted
except the `required` flag; the cost is optional as in the data model. -/
structure VisaRule where
  destination : String
  nationality : String
  required : Bool
  cost_usd : Option ℚ
deriving DecidableEq, Repr, Inhabited

/-- Scanning loop for visa-rule resolution, mirroring the strict-improvement
scan of `find_route_fuzzy`. -/
def findVisaAux (nd nn : String) : List VisaRule → Option VisaRule → ℚ → Option VisaRule
  | [], best, _ => best
  | v :: rest, best, bestScore =>
    let ds := fuzzScore nd (normalize_location v.destination)
    let ns := fuzzScore nn (normalize_location v.nationality)
    let avg := (ds + ns) / 2
    if decide (SIMILARITY_THRESHOLD ≤ ds) && decide (SIMILARITY_THRESHOLD ≤ ns) &&
        decide (bestScore < avg) then
      findVisaAux nd nn rest (some v) avg
    else findVisaAux nd nn rest best bestScore

/-- Modelled from the spec: `find_visa_requirements` is imported by
`estimate_budget.py` from the data module, but its definition is not among
the provided sources.  Per the spec's Fuzzy Resolver contract it normalizes
both query fields, requires every per-field similarity ≥ the threshold, and
returns the candidate with the highest mean similarity, first-seen order
breaking ties. -/
def find_visa_requirements (destination nationality : String)
    (rules : List VisaRule) : Option VisaRule :=
  findVisaAux (normalize_location destination) (normalize_location nationality) rules none 0

/-- One line of the accommodation breakdown. -/
structure AccommodationBreakdownItem where
  waypoint_name : String
  price_per_night : ℚ
  currency : String
  nights : Int
  total_cost : ℚ
  is_estimated : Bool
deriving DecidableEq, Repr, Inhabited

structure AccommodationBudgetItem where
  total_eur : ℚ
  breakdown : List AccommodationBreakdownItem
  currency_details : List (String × ℚ)
deriving DecidableEq, Repr, Inhabited

structure FoodBudgetItem where
  total_eur : ℚ
  daily_cost_eur : ℚ
  days : Int
deriving DecidableEq, Repr, Inhabited

structure VisaBudgetItem where
  cost_usd : ℚ
  cost_eur : ℚ
  info : String
deriving DecidableEq, Repr, Inhabited

structure OtherExpensesItem where
  total_eur : ℚ
  bike_maintenance_eur : ℚ
  bike_maintenance_per_km : ℚ
  distance_km : ℚ
  miscellaneous_eur : ℚ
  miscellaneous_per_day : ℚ
  days : Int
deriving DecidableEq, Repr, Inhabited

structure EstimateBudgetOutput where
  start_point : String
  end_point : String
  route_distance_km : ℚ
  estimated_days : Int
  accommodation : AccommodationBudgetItem
  food : FoodBudgetItem
  visa : VisaBudgetItem
  other_expenses : OtherExpensesItem
  total_eur : ℚ
  total_usd : ℚ
deriving DecidableEq, Repr, Inhabited

/-- The fixed per-type estimated price used when no accommodation data
matches a stop (duplicated verbatim in two places in the source). -/
def estPrice (accommodation_preference : Option String) : ℚ :=
  if truthy accommodation_preference then
    let pref := pyLower (accommodation_preference.getD "")
    if pref == "camping" then CAMPING_PRICE
    else if pref == "hostel" then HOSTEL_PRICE
    else if pref == "hotel" then HOTEL_PRICE
    else DEFAULT_ACCOMMODATION_PRICE
  else DEFAULT_ACCOMMODATION_PRICE

/-- One iteration of the per-stop loop of `estimate_budget`: `none` when the
waypoint name is falsy (the loop's `continue`), otherwise the breakdown item
for stop `i`.  Nights: `nights_per_stop` for every stop but the last, the
remainder for the last.  `estimated_days // num_stops` is Python floor
division, i.e. `Int.fdiv`. -/
def stopItem (accsDB : List Accommodation) (accommodation_preference : Option String)
    (estimated_days nights_per_stop : Int) (num_stops i : Nat) (w : Waypoint) :
    Option AccommodationBreakdownItem :=
  if w.name = "" then none
  else
    let acc_type := if truthy accommodation_preference then
        accommodation_preference.getD ""
      else "all"
    let accommodations := find_accommodations w.name acc_type accsDB
    let nights : Int :=
      if i < num_stops - 1 then nights_per_stop
      else estimated_days - nights_per_stop * ((num_stops : Int) - 1)
    match get_accommodation_price accommodations accommodation_preference with
    | some pc => some ⟨w.name, pc.1, pc.2, nights, pc.1 * (nights : ℚ), false⟩
    | none =>
      let estimated_price := estPrice accommodation_preference
      some ⟨w.name, estimated_price, "EUR", nights, estimated_price * (nights : ℚ), true⟩

/-- `accommodation_by_currency[currency] += total_cost` on a `defaultdict`
that preserves insertion order. -/
def addCurrency (d : List (String × ℚ)) (c : String) (v : ℚ) : List (String × ℚ) :=
  match lookupStr d c with
  | some w => d.map (fun p => if p.1 = c then (c, w + v) else p)
  | none => d ++ [(c, v)]

/-- Ordering of `sorted(accommodation_by_currency.items())`: lexicographic on
the (unique) currency keys. -/
def currencyKeyLe (p q : String × ℚ) : Prop := p.1 < q.1 ∨ p.1 = q.1

instance : DecidableRel currencyKeyLe := fun p q => by
  unfold currencyKeyLe
  infer_instance

/-- Trip duration: `duration_days` if supplied, else
`ceil(distance_km / daily_average_km)`; `none` when neither a duration nor a
positive daily average is available. -/
def resolveDuration (duration_days : Option Int) (daily_average_km : Option ℚ)
    (distance_km : ℚ) : Option Int :=
  match duration_days with
  | some d => some d
  | none =>
    match daily_average_km with
    | none => none
    | some k => if k ≤ 0 then none else some (Rat.ceil (distance_km / k))

/-- The body of `estimate_budget` after route resolution and duration
calculation: accommodation breakdown, food, visa, other expenses, totals.
(The source renders the visa USD amount with two decimals in `visa_info`;
the plain `ℚ` rendering stands in for that formatting.) -/
def buildBudget (accsDB : List Accommodation) (visaDB : List VisaRule)
    (start_point end_point : String) (route : Route)
    (accommodation_preference destination nationality : Option String)
    (estimated_days : Int) : EstimateBudgetOutput :=
  let distance_km := route.distance_km
  let waypoints := route.waypoints
  let accPart : ℚ × List AccommodationBreakdownItem × List (String × ℚ) :=
    if 1 < waypoints.length then
      let num_stops := waypoints.length - 1
      let nights_per_stop := max 1 (Int.fdiv estimated_days (num_stops : Int))
      let items := ((List.range num_stops).zip waypoints.dropLast).filterMap
        (fun p => stopItem accsDB accommodation_preference estimated_days
          nights_per_stop num_stops p.1 p.2)
      ((items.map (fun it => convert_to_eur it.total_cost it.currency)).sum,
        items,
        items.foldl (fun d it => addCurrency d it.currency it.total_cost) [])
    else
      let estimated_price := estPrice accommodation_preference
      let tot := estimated_price * (estimated_days : ℚ)
      (tot, [⟨"Estimated", estimated_price, "EUR", estimated_days, tot, true⟩],
        [("EUR", tot)])
  let accommodation_total_eur := accPart.1
  let breakdown_items := accPart.2.1
  let by_currency := accPart.2.2
  let food_total_eur := DAILY_FOOD_COST * (estimated_days : ℚ)
  let visaPart : ℚ × String :=
    if truthy destination && truthy nationality then
      match find_visa_requirements (destination.getD "") (nationality.getD "") visaDB with
      | some visa_data =>
        let visa_cost := visa_data.cost_usd.getD 0
        if 0 < visa_cost then (visa_cost, s!"Visa required: {visa_cost} USD")
        else (0, "No visa cost (visa not required or free)")
      | none => (0, "Visa information not available")
    else if truthy destination || truthy nationality then
      (0, "Both destination and nationality required for visa cost calculation")
    else (0, "")
  let visa_total_usd := visaPart.1
  let visa_total_eur :=
    if 0 < visa_total_usd then
      visa_total_usd / ((lookupStr CURRENCY_RATES "USD").getD 1)
    else 0
  let bike_maintenance_eur := BIKE_MAINTENANCE_PER_KM * distance_km
  let miscellaneous_eur := MISCELLANEOUS_PER_DAY * (estimated_days : ℚ)
  let other_total_eur := bike_maintenance_eur + miscellaneous_eur
  let total_eur := accommodation_total_eur + food_total_eur + visa_total_eur + other_total_eur
  let currency_details :=
    (List.insertionSort currencyKeyLe by_currency).filter (fun p => !(p.1 == "EUR"))
  ⟨start_point, end_point, distance_km, estimated_days,
    ⟨accommodation_total_eur, breakdown_items, currency_details⟩,
    ⟨food_total_eur, DAILY_FOOD_COST, estimated_days⟩,
    ⟨visa_total_usd, visa_total_eur, visaPart.2⟩,
    ⟨other_total_eur, bike_maintenance_eur, BIKE_MAINTENANCE_PER_KM, distance_km,
      miscellaneous_eur, MISCELLANEOUS_PER_DAY, estimated_days⟩,
    total_eur, convert_eur_to_usd total_eur⟩

/-- `estimate_budget`: resolve the route, determine the duration, then build
the structured budget. -/
def estimate_budget (routesDB : List Route) (accsDB : List Accommodation)
    (visaDB : List VisaRule) (start_point end_point : String)
    (duration_days : Option Int) (daily_average_km : Option ℚ)
    (accommodation_preference destination nationality : Option String) :
    ToolResult EstimateBudgetOutput :=
  match find_route_fuzzy start_point end_point routesDB with
  | none =>
    .err (s!"No route found from {start_point} to {end_point}.\n" ++
      "Please check the location names and try again.")
  | some route =>
    match resolveDuration duration_days daily_average_km route.distance_km with
    | none =>
      .err ("Error: Either duration_days or daily_average_km must be provided " ++
        "to calculate the budget.")
    | some estimated_days =>
      .ok (buildBudget accsDB visaDB start_point end_point route
        accommodation_preference destination nationality estimated_days)

/-! ## Elevation profile (`get_elevation_profile.py`) -/

/-- An elevation record from the elevations dataset. -/
structure ElevationRecord where
  location : String
  elevation_m : ℚ
deriving DecidableEq, Repr, Inhabited

/-- Scanning loop for elevation resolution: single required field, strict
improvement, first-seen order breaks ties. -/
def findElevationAux (nl : String) :
    List ElevationRecord → Option ElevationRecord → ℚ → Option ElevationRecord
  | [], best, _ => best
  | e :: rest, best, bestScore =>
    let s := fuzzScore nl (normalize_location e.location)
    if decide (SIMILARITY_THRESHOLD ≤ s) && decide (bestScore < s) then
      findElevationAux nl rest (some e) s
    else findElevationAux nl rest best bestScore

/-- Modelled from the spec: `find_elevation` is imported by
`get_elevation_profile.py` from the data module, but its definition is not
among the provided sources.  Per the spec's Fuzzy Resolver contract it
returns the elevation record whose location best matches the query at or
above the threshold. -/
def find_elevation (location : String) (elevDB : List ElevationRecord) :
    Option ElevationRecord :=
  findElevationAux (normalize_location location) elevDB none 0

structure ElevationWaypoint where
  name : String
  elevation_m : ℚ
deriving DecidableEq, Repr, Inhabited

structure RouteElevationOutput where
  start_point : String
  end_point : String
  distance_km : ℚ
  total_elevation_gain : ℚ
  total_elevation_loss : ℚ
  max_elevation : ℚ
  max_elevation_waypoint : String
  min_elevation : ℚ
  min_elevation_waypoint : String
  average_gradient_m_per_km : ℚ
  difficulty_rating : String
  profile : List ElevationWaypoint
deriving DecidableEq, Repr, Inhabited

structure LocationElevationOutput where
  location : String
  elevation_m : ℚ
deriving DecidableEq, Repr, Inhabited

/-- The two structured payload shapes of `get_elevation_profile`. -/
inductive ElevPayload where
  | routeProfile (output : RouteElevationOutput)
  | locationElevation (output : LocationElevationOutput)
deriving DecidableEq, Repr

instance : Inhabited ElevPayload := ⟨.locationElevation default⟩

/-- `calculate_difficulty_rating`: fixed thresholds, lower bound exclusive
for Easy and inclusive for the others. -/
def calculate_difficulty_rating (elevation_gain_per_km : ℚ) : String :=
  if elevation_gain_per_km < 10 then "Easy"
  else if elevation_gain_per_km < 30 then "Moderate"
  else if elevation_gain_per_km < 50 then "Hard"
  else "Very Hard"

/-- Python `max(list)` over a non-empty list (0 as the unused default). -/
def listMaxD : List ℚ → ℚ
  | [] => 0
  | x :: xs => xs.foldl max x

/-- Python `min(list)` over a non-empty list (0 as the unused default). -/
def listMinD : List ℚ → ℚ
  | [] => 0
  | x :: xs => xs.foldl min x

/-- The pairwise gain/loss accumulation loop: positive deltas add to gain,
non-positive deltas add their absolute value to loss. -/
def gainLossAccum (elevations : List ℚ) : ℚ × ℚ :=
  (elevations.zip elevations.tail).foldl
    (fun acc p =>
      let elevation_change := p.2 - p.1
      if 0 < elevation_change then (acc.1 + elevation_change, acc.2)
      else (acc.1, acc.2 + |elevation_change|))
    (0, 0)

/-- `get_elevation_profile`.  Route mode requires both endpoints truthy;
otherwise a truthy single location gives the location mode; otherwise the
fixed guidance string.  Every waypoint in the embedded data model is a
record, so the source's `isinstance(waypoint, dict)` test always holds. -/
def get_elevation_profile (routesDB : List Route) (elevDB : List ElevationRecord)
    (location start_point end_point : Option String) : ToolResult ElevPayload :=
  if truthy start_point && truthy end_point then
    let sp := start_point.getD ""
    let ep := end_point.getD ""
    match find_route_fuzzy sp ep routesDB with
    | none =>
      .err (s!"No route found from {sp} to {ep}.\n" ++
        "Please check the location names and try again.")
    | some route =>
      let distance_km := route.distance_km
      let waypoints := route.waypoints
      if waypoints.isEmpty || decide (distance_km = 0) then
        .err s!"Route from {sp} to {ep} found but missing waypoints or distance data."
      else
        let looked := waypoints.map (fun w => (w.name, find_elevation w.name elevDB))
        let waypoint_elevations := looked.filterMap
          (fun p => p.2.map (fun e => ElevationWaypoint.mk p.1 e.elevation_m))
        let missing_elevations := looked.filterMap
          (fun p => if p.2.isNone then some p.1 else none)
        if !missing_elevations.isEmpty then
          let missing_cities := String.intercalate ", " missing_elevations
          .err (s!"Elevation data not found for the following cities: {missing_cities}.\n" ++
            "Cannot calculate elevation profile.")
        else if waypoint_elevations.length < 2 then
          .err ("Insufficient elevation data to calculate profile. " ++
            "Need at least 2 waypoints.")
        else
          let elevations := waypoint_elevations.map (fun wp => wp.elevation_m)
          let max_elevation := listMaxD elevations
          let min_elevation := listMinD elevations
          let max_elevation_waypoint :=
            ((waypoint_elevations.find? (fun wp => wp.elevation_m == max_elevation)).map
              (fun wp => wp.name)).getD ""
          let min_elevation_waypoint :=
            ((waypoint_elevations.find? (fun wp => wp.elevation_m == min_elevation)).map
              (fun wp => wp.name)).getD ""
          let gl := gainLossAccum elevations
          let elevation_gain_per_km :=
            if 0 < distance_km then gl.1 / distance_km else 0
          .ok (.routeProfile ⟨sp, ep, distance_km, gl.1, gl.2,
            max_elevation, max_elevation_waypoint, min_elevation, min_elevation_waypoint,
            elevation_gain_per_km, calculate_difficulty_rating elevation_gain_per_km,
            waypoint_elevations⟩)
  else if truthy location then
    let loc := location.getD ""
    match find_elevation loc elevDB with
    | none =>
      .err (s!"Elevation data not found for {loc}.\n" ++
        "Please check the location name and try again.")
    | some elevation_data =>
      .ok (.locationElevation ⟨loc, elevation_data.elevation_m⟩)
  else
    .err ("Please provide either:\n- A single location name, OR\n" ++
      "- Both start_point and end_point for a route elevation profile.")

/-! ## Lemmas about the fuzzy route resolver -/

theorem avgSim_le_100 (qs qe : String) (r : Route) : avgSim qs qe r ≤ 100 := by
  have h1 := fuzzScore_le_100 (normalize_location qs) (normalize_location r.start_point)
  have h2 := fuzzScore_le_100 (normalize_location qe) (normalize_location r.end_point)
  unfold avgSim startSim endSim
  linarith

theorem qualifiesRoute_true_iff (qs qe : String) (r : Route) :
    qualifiesRoute qs qe r = true ↔
      SIMILARITY_THRESHOLD ≤ startSim qs r ∧ SIMILARITY_THRESHOLD ≤ endSim qe r := by
  unfold qualifiesRoute
  rw [Bool.and_eq_true, decide_eq_true_eq, decide_eq_true_eq]

theorem avgSim_pos_of_qualifies {qs qe : String} {r : Route}
    (h : qualifiesRoute qs qe r = true) : 0 < avgSim qs qe r := by
  obtain ⟨h1, h2⟩ := (qualifiesRoute_true_iff qs qe r).mp h
  unfold SIMILARITY_THRESHOLD at h1 h2
  unfold avgSim
  linarith

theorem leadBeats_true_iff (qs qe : String) (s : ℚ) (l : List Route) (r : Route) :
    leadBeats qs qe s l r = true ↔
      qualifiesRoute qs qe r = true ∧ s < avgSim qs qe r ∧
        ∀ y ∈ l, qualifiesRoute qs qe y = true → avgSim qs qe y ≤ avgSim qs qe r := by
  unfold leadBeats
  rw [Bool.and_eq_true, Bool.and_eq_true, decide_eq_true_eq, List.all_eq_true]
  constructor
  · rintro ⟨⟨hq, hs⟩, hall⟩
    refine ⟨hq, hs, ?_⟩
    intro y hy hqy
    have h := hall y hy
    rw [Bool.or_eq_true, Bool.not_eq_true', decide_eq_true_eq] at h
    rcases h with h | h
    · rw [hqy] at h; cases h
    · exact h
  · rintro ⟨hq, hs, hall⟩
    refine ⟨⟨hq, hs⟩, ?_⟩
    intro y hy
    rw [Bool.or_eq_true, Bool.not_eq_true', decide_eq_true_eq]
    by_cases hqy : qualifiesRoute qs qe y = true
    · exact Or.inr (hall y hy hqy)
    · exact Or.inl (by simpa using hqy)

/-- If no remaining qualifying route strictly beats the current best score,
the loop keeps the current best match. -/
theorem findRouteAux_stay (qs qe : String) :
    ∀ (l : List Route) (b : Option Route) (s : ℚ),
      (∀ x ∈ l, qualifiesRoute qs qe x = true → avgSim qs qe x ≤ s) →
      findRouteAux qs qe l b s = b
  | [], _, _, _ => rfl
  | r :: rest, b, s, h => by
    rw [findRouteAux]
    have hcond : ¬ ((qualifiesRoute qs qe r && decide (s < avgSim qs qe r)) = true) := by
      intro hc
      rw [Bool.and_eq_true, decide_eq_true_eq] at hc
      exact absurd hc.2 (not_lt.mpr (h r (List.mem_cons_self r rest) hc.1))
    rw [if_neg hcond]
    exact findRouteAux_stay qs qe rest b s (fun x hx => h x (List.mem_cons_of_mem _ hx))

/-- If some remaining route qualifies and strictly beats the current best
score, the loop returns the first remaining route that attains the maximum
average similarity (the accumulator is discarded). -/
theorem findRouteAux_select (qs qe : String) :
    ∀ (l : List Route) (b : Option Route) (s : ℚ),
      (∃ x ∈ l, qualifiesRoute qs qe x = true ∧ s < avgSim qs qe x) →
      findRouteAux qs qe l b s = (l.filter (leadBeats qs qe s l)).head?
  | [], _, _, hex => by simp at hex
  | r :: rest, b, s, hex => by
    by_cases hcr : (qualifiesRoute qs qe r && decide (s < avgSim qs qe r)) = true
    · rw [findRouteAux, if_pos hcr]
      rw [Bool.and_eq_true, decide_eq_true_eq] at hcr
      obtain ⟨hqr, hsr⟩ := hcr
      by_cases hbeat : ∃ x ∈ rest, qualifiesRoute qs qe x = true ∧
          avgSim qs qe r < avgSim qs qe x
      · rw [findRouteAux_select qs qe rest (some r) (avgSim qs qe r) hbeat]
        obtain ⟨x, hxm, hxq, hxgt⟩ := hbeat
        have hrfail : leadBeats qs qe s (r :: rest) r = false := by
          rw [Bool.eq_false_iff]
          intro hc
          obtain ⟨_, _, hall⟩ := (leadBeats_true_iff qs qe s (r :: rest) r).mp hc
          exact absurd (hall x (List.mem_cons_of_mem _ hxm) hxq) (not_le.mpr hxgt)
        rw [List.filter_cons_of_neg (by simp [hrfail])]
        apply congrArg List.head?
        apply List.filter_congr
        intro z hz
        rw [Bool.eq_iff_iff, leadBeats_true_iff, leadBeats_true_iff]
        constructor
        · rintro ⟨hq, hzs, hall⟩
          have hxz : avgSim qs qe x ≤ avgSim qs qe z := hall x hxm hxq
          refine ⟨hq, by linarith, ?_⟩
          intro y hy hqy
          rcases List.mem_cons.mp hy with rfl | hy'
          · linarith
          · exact hall y hy' hqy
        · rintro ⟨hq, hzs, hall⟩
          have hxz : avgSim qs qe x ≤ avgSim qs qe z :=
            hall x (List.mem_cons_of_mem _ hxm) hxq
          refine ⟨hq, by linarith, ?_⟩
          intro y hy hqy
          exact hall y (List.mem_cons_of_mem _ hy) hqy
      · push_neg at hbeat
        have hall : ∀ x ∈ rest, qualifiesRoute qs qe x = true →
            avgSim qs qe x ≤ avgSim qs qe r := by
          intro x hx hqx
          exact not_lt.mp (fun hc => absurd hc (not_lt.mpr (hbeat x hx hqx)))
        rw [findRouteAux_stay qs qe rest (some r) (avgSim qs qe r) hall]
        have hrpass : leadBeats qs qe s (r :: rest) r = true := by
          rw [leadBeats_true_iff]
          refine ⟨hqr, hsr, ?_⟩
          intro y hy hqy
          rcases List.mem_cons.mp hy with rfl | hy'
          · exact le_refl _
          · exact hall y hy' hqy
        rw [List.filter_cons_of_pos (by simp [hrpass])]
        rfl
    · rw [findRouteAux, if_neg hcr]
      obtain ⟨x, hxm, hxq, hxs⟩ := hex
      have hxrest : x ∈ rest := by
        rcases List.mem_cons.mp hxm with rfl | h
        · exact absurd (by rw [Bool.and_eq_true, decide_eq_true_eq]; exact ⟨hxq, hxs⟩) hcr
        · exact h
      rw [findRouteAux_select qs qe rest b s ⟨x, hxrest, hxq, hxs⟩]
      have hrfail : leadBeats qs qe s (r :: rest) r = false := by
        rw [Bool.eq_false_iff]
        intro hc
        obtain ⟨h1, h2, _⟩ := (leadBeats_true_iff qs qe s (r :: rest) r).mp hc
        exact hcr (by rw [Bool.and_eq_true, decide_eq_true_eq]; exact ⟨h1, h2⟩)
      rw [List.filter_cons_of_neg (by simp [hrfail])]
      apply congrArg List.head?
      apply List.filter_congr
      intro z hz
      rw [Bool.eq_iff_iff, leadBeats_true_iff, leadBeats_true_iff]
      constructor
      · rintro ⟨hq, hzs, hall⟩
        refine ⟨hq, hzs, ?_⟩
        intro y hy hqy
        rcases List.mem_cons.mp hy with rfl | hy'
        · have hns : ¬ (s < avgSim qs qe y) := by
            intro hlt
            exact hcr (by rw [Bool.and_eq_true, decide_eq_true_eq]; exact ⟨hqy, hlt⟩)
          have hle : avgSim qs qe y ≤ s := not_lt.mp hns
          linarith
        · exact hall y hy' hqy
      · rintro ⟨hq, hzs, hall⟩
        exact ⟨hq, hzs, fun y hy hqy => hall y (List.mem_cons_of_mem _ hy) hqy⟩

/-- The resolver returns the first route, in dataset order, attaining the
maximum average endpoint similarity among routes with both endpoint
similarities at or above the threshold; `none` if no route qualifies. -/
theorem find_route_fuzzy_eq (qs qe : String) (routes : List Route) :
    find_route_fuzzy qs qe routes =
      ((routes.filter (qualifiesRoute qs qe)).filter
        (isBestAmong qs qe (routes.filter (qualifiesRoute qs qe)))).head? := by
  by_cases hex : ∃ x ∈ routes, qualifiesRoute qs qe x = true
  · obtain ⟨x, hxm, hxq⟩ := hex
    rw [find_route_fuzzy,
      findRouteAux_select qs qe routes none 0 ⟨x, hxm, hxq, avgSim_pos_of_qualifies hxq⟩,
      List.filter_filter]
    apply congrArg List.head?
    apply List.filter_congr
    intro z hz
    rw [Bool.eq_iff_iff, leadBeats_true_iff, Bool.and_eq_true]
    unfold isBestAmong
    rw [List.all_eq_true]
    constructor
    · rintro ⟨hq, _, hall⟩
      refine ⟨?_, hq⟩
      intro y hy
      obtain ⟨hym, hyq⟩ := List.mem_filter.mp hy
      exact decide_eq_true (hall y hym hyq)
    · rintro ⟨hall, hq⟩
      refine ⟨hq, avgSim_pos_of_qualifies hq, ?_⟩
      intro y hy hqy
      exact of_decide_eq_true (hall y (List.mem_filter.mpr ⟨hy, hqy⟩))
  · push_neg at hex
    rw [find_route_fuzzy,
      findRouteAux_stay qs qe routes none 0 (fun x hx hq => absurd hq (hex x hx))]
    have hnil : List.filter (qualifiesRoute qs qe) routes = [] :=
      List.filter_eq_nil_iff.mpr (fun a ha => by simpa using hex a ha)
    rw [hnil]
    rfl

/-! ## Helper lemmas for the schedule calculator -/

theorem special_list_filter_id (n N : Nat) (hN : 0 < N) :
    ((List.range (n / N)).map (fun k => (k + 1) * N)).filter (fun night => night ≤ n) =
      (List.range (n / N)).map (fun k => (k + 1) * N) := by
  apply List.filter_eq_self.mpr
  intro m hm
  obtain ⟨k, hk, rfl⟩ := List.mem_map.mp hm
  have hk' : k + 1 ≤ n / N := List.mem_range.mp hk
  have hle : (k + 1) * N ≤ n := (Nat.le_div_iff_mul_le hN).mp hk'
  simpa using hle

theorem mem_special_list (n N : Nat) (hN : 0 < N) (m : Nat) :
    m ∈ (List.range (n / N)).map (fun k => (k + 1) * N) ↔
      1 ≤ m ∧ m ≤ n ∧ N ∣ m := by
  rw [List.mem_map]
  constructor
  · rintro ⟨k, hk, rfl⟩
    have hk' : k + 1 ≤ n / N := List.mem_range.mp hk
    refine ⟨?_, (Nat.le_div_iff_mul_le hN).mp hk', ⟨k + 1, by ring⟩⟩
    have h1 : 1 * 1 ≤ (k + 1) * N := Nat.mul_le_mul (by omega) hN
    omega
  · rintro ⟨h1, h2, j, rfl⟩
    have hj : 1 ≤ j := by
      rcases Nat.eq_zero_or_pos j with rfl | h
      · simp at h1
      · exact h
    refine ⟨j - 1, ?_, ?_⟩
    · rw [List.mem_range]
      have hjd : j ≤ n / N := (Nat.le_div_iff_mul_le hN).mpr (by rw [Nat.mul_comm]; exact h2)
      omega
    · have hj1 : j - 1 + 1 = j := by omega
      rw [hj1]; ring

theorem contains_iff_mem_nat (l : List Nat) (a : Nat) :
    l.contains a = true ↔ a ∈ l := by
  simp [List.contains_iff_exists_mem_beq]

theorem range_map_if_last (ns : Nat) (hns : 0 < ns) (a b : Int) :
    (List.range ns).map (fun i => if i < ns - 1 then a else b) =
      List.replicate (ns - 1) a ++ [b] := by
  obtain ⟨m, rfl⟩ : ∃ m, ns = m + 1 := ⟨ns - 1, by omega⟩
  rw [List.range_succ, List.map_append]
  congr 1
  · rw [List.eq_replicate_iff]
    refine ⟨by simp, ?_⟩
    intro x hx
    obtain ⟨i, hi, rfl⟩ := List.mem_map.mp hx
    have hilt : i < m := List.mem_range.mp hi
    rw [if_pos (by omega)]
  · simp only [List.map_cons, List.map_nil]
    rw [if_neg (by omega)]

/-! ## The claims -/

/-- C7: `calculate_difficulty_rating` maps every gradient `g` to Easy if
`g < 10`, Moderate if `10 ≤ g < 30`, Hard if `30 ≤ g < 50`, Very Hard if
`50 ≤ g`; in particular the boundary values 10, 30, 50 map to Moderate, Hard
and Very Hard (half-open intervals, lower bound inclusive). -/
theorem claim_C7 (g : ℚ) :
    (g < 10 → calculate_difficulty_rating g = "Easy") ∧
    (10 ≤ g → g < 30 → calculate_difficulty_rating g = "Moderate") ∧
    (30 ≤ g → g < 50 → calculate_difficulty_rating g = "Hard") ∧
    (50 ≤ g → calculate_difficulty_rating g = "Very Hard") ∧
    calculate_difficulty_rating 10 = "Moderate" ∧
    calculate_difficulty_rating 30 = "Hard" ∧
    calculate_difficulty_rating 50 = "Very Hard" := by
  refine ⟨?_, ?_, ?_, ?_, ?_, ?_, ?_⟩
  · intro h
    unfold calculate_difficulty_rating
    rw [if_pos h]
  · intro h1 h2
    unfold calculate_difficulty_rating
    rw [if_neg (not_lt.mpr h1), if_pos h2]
  · intro h1 h2
    unfold calculate_difficulty_rating
    rw [if_neg (not_lt.mpr (by linarith)), if_neg (not_lt.mpr h1), if_pos h2]
  · intro h
    unfold calculate_difficulty_rating
    rw [if_neg (not_lt.mpr (by linarith)), if_neg (not_lt.mpr (by linarith)),
      if_neg (not_lt.mpr h)]
  · unfold calculate_difficulty_rating
    rw [if_neg (by norm_num), if_pos (by norm_num)]
  · unfold calculate_difficulty_rating
    rw [if_neg (by norm_num), if_neg (by norm_num), if_pos (by norm_num)]
  · unfold calculate_difficulty_rating
    rw [if_neg (by norm_num), if_neg (by norm_num), if_neg (by norm_num)]

/-- C7 witness: concrete gradients 5, 20, 40, 60 get the four ratings. -/
theorem claim_C7_witness :
    calculate_difficulty_rating 5 = "Easy" ∧
    calculate_difficulty_rating 20 = "Moderate" ∧
    calculate_difficulty_rating 40 = "Hard" ∧
    calculate_difficulty_rating 60 = "Very Hard" :=
  ⟨(claim_C7 5).1 (by norm_num),
    (claim_C7 20).2.1 (by norm_num) (by norm_num),
    (claim_C7 40).2.2.1 (by norm_num) (by norm_num),
    (claim_C7 60).2.2.2.1 (by norm_num)⟩

/-- C8: converting an amount from EUR to USD and back to EUR is the identity,
exactly, because `convert_eur_to_usd` multiplies by the static USD rate and
`convert_to_eur` for `"USD"` divides by the same rate. -/
theorem claim_C8 (x : ℚ) : convert_to_eur (convert_eur_to_usd x) "USD" = x := by
  have hl : lookupStr CURRENCY_RATES "USD" = some (11/10 : ℚ) := rfl
  unfold convert_to_eur convert_eur_to_usd
  rw [hl]
  rw [if_neg (by decide : ¬ ("USD" = "EUR"))]
  simp only [Option.isSome_some, Option.getD_some, if_true, reduceIte]
  exact mul_div_cancel_right₀ x (by norm_num)

/-- C10: with exactly one of `start_point`/`end_point` truthy and `location`
not truthy, `get_elevation_profile` never enters route mode and returns the
fixed guidance string (and, being a total function, does not raise). -/
theorem claim_C10 (routesDB : List Route) (elevDB : List ElevationRecord)
    (location start_point end_point : Option String)
    (hloc : truthy location = false)
    (hone : truthy start_point ≠ truthy end_point) :
    get_elevation_profile routesDB elevDB location start_point end_point =
      .err ("Please provide either:\n- A single location name, OR\n" ++
        "- Both start_point and end_point for a route elevation profile.") := by
  have hand : (truthy start_point && truthy end_point) = false := by
    cases hsp : truthy start_point <;> cases hep : truthy end_point <;> simp_all
  unfold get_elevation_profile
  rw [hand, hloc]
  rfl

/-- C10 witness: only `start_point` supplied. -/
theorem claim_C10_witness :
    get_elevation_profile [] [] none (some "paris") none =
      .err ("Please provide either:\n- A single location name, OR\n" ++
        "- Both start_point and end_point for a route elevation profile.") :=
  claim_C10 [] [] none (some "paris") none rfl (by decide)

/-- C3: invalid-input and not-found conditions at the core interfaces are
returned as descriptive diagnostic strings, never raised: unparsable
schedule pattern, non-positive period, non-positive total nights, no fuzzy
route match, and a missing duration with no positive daily average. -/
theorem claim_C3 :
    (∀ (total_nights : Int) (pat acc dft : String),
      parse_pattern pat = none →
      calculate_accommodation_schedule total_nights pat acc dft =
        .err ("Could not parse pattern \x27" ++ pat ++ "\x27. " ++
          "Expected format: \x27every Xth night\x27 or \x27every X nights\x27 " ++
          "(e.g., \x27every 4th night\x27).")) ∧
    (∀ (total_nights : Int) (pat acc dft : String) (N : Nat),
      parse_pattern pat = some N → N ≤ 0 →
      calculate_accommodation_schedule total_nights pat acc dft =
        .err s!"Period must be positive, got {N}") ∧
    (∀ (total_nights : Int) (pat acc dft : String) (N : Nat),
      parse_pattern pat = some N → 0 < N → total_nights ≤ 0 →
      calculate_accommodation_schedule total_nights pat acc dft =
        .err s!"Total nights must be positive, got {total_nights}") ∧
    (∀ (routesDB : List Route) (accsDB : List Accommodation) (visaDB : List VisaRule)
      (sp ep : String) (dur : Option Int) (daily : Option ℚ)
      (pref dest nation : Option String),
      find_route_fuzzy sp ep routesDB = none →
      estimate_budget routesDB accsDB visaDB sp ep dur daily pref dest nation =
        .err (s!"No route found from {sp} to {ep}.\n" ++
          "Please check the location names and try again.")) ∧
    (∀ (routesDB : List Route) (accsDB : List Accommodation) (visaDB : List VisaRule)
      (sp ep : String) (daily : Option ℚ) (pref dest nation : Option String) (r : Route),
      find_route_fuzzy sp ep routesDB = some r →
      (∀ k, daily = some k → k ≤ 0) →
      estimate_budget routesDB accsDB visaDB sp ep none daily pref dest nation =
        .err ("Error: Either duration_days or daily_average_km must be provided " ++
          "to calculate the budget.")) := by
  refine ⟨?_, ?_, ?_, ?_, ?_⟩
  · intro total_nights pat acc dft h
    unfold calculate_accommodation_schedule
    simp only [h]
  · intro total_nights pat acc dft N h hN
    unfold calculate_accommodation_schedule
    simp only [h]
    rw [if_pos hN]
  · intro total_nights pat acc dft N h hN htot
    unfold calculate_accommodation_schedule
    simp only [h]
    rw [if_neg (by omega : ¬ N ≤ 0), if_pos htot]
  · intro routesDB accsDB visaDB sp ep dur daily pref dest nation h
    unfold estimate_budget
    simp only [h]
  · intro routesDB accsDB visaDB sp ep daily pref dest nation r hr hk
    unfold estimate_budget
    simp only [hr]
    have hres : resolveDuration none daily r.distance_km = none := by
      unfold resolveDuration
      cases daily with
      | none => rfl
      | some k => simp only [if_pos (hk k rfl)]
    simp only [hres]

unseal Rat.mul Rat.inv Rat.add Rat.sub in
/-- C3 witness: each error path hit on a concrete input. -/
theorem claim_C3_witness :
    calculate_accommodation_schedule 10 "invalid pattern" "hostel" "camping" =
      .err ("Could not parse pattern \x27invalid pattern\x27. " ++
        "Expected format: \x27every Xth night\x27 or \x27every X nights\x27 " ++
        "(e.g., \x27every 4th night\x27).") ∧
    calculate_accommodation_schedule 10 "every 0 nights" "hostel" "camping" =
      .err "Period must be positive, got 0" ∧
    calculate_accommodation_schedule 0 "every 4th night" "hostel" "camping" =
      .err "Total nights must be positive, got 0" ∧
    estimate_budget [] [] [] "paris" "london" none none none none none =
      .err ("No route found from paris to london.\n" ++
        "Please check the location names and try again.") ∧
    estimate_budget [⟨"paris", "london", 100, []⟩] [] [] "paris" "london"
        none none none none none =
      .err ("Error: Either duration_days or daily_average_km must be provided " ++
        "to calculate the budget.") :=
  ⟨claim_C3.1 10 "invalid pattern" "hostel" "camping" rfl,
    claim_C3.2.1 10 "every 0 nights" "hostel" "camping" 0 rfl (le_refl 0),
    claim_C3.2.2.1 0 "every 4th night" "hostel" "camping" 4 rfl (by norm_num) (le_refl 0),
    claim_C3.2.2.2.1 [] [] [] "paris" "london" none none none none none rfl,
    claim_C3.2.2.2.2 [⟨"paris", "london", 100, []⟩] [] [] "paris" "london"
      none none none none ⟨"paris", "london", 100, []⟩ rfl (fun k h => by cases h)⟩

unseal Rat.mul Rat.inv Rat.add Rat.sub in
/-- C5 counterexample: for a resolved route with distance 0 (and non-empty
waypoints), route mode returns the missing-data diagnostic string, not a
structured result with gradient 0, so the claim as stated is false. -/
theorem claim_C5_counterexample :
    get_elevation_profile [⟨"a", "b", 0, [⟨"w", 0⟩]⟩] [] none (some "a") (some "b") =
      .err "Route from a to b found but missing waypoints or distance data." := by
  decide

/-- C5 (amended): in route mode, a resolved route with distance 0 is rejected
with the missing-data diagnostic string before any division, and in every
structured route result the reported average gradient equals total elevation
gain divided by route distance when the distance is positive and 0 otherwise
— so no division failure can occur. -/
theorem claim_C5_amended (routesDB : List Route) (elevDB : List ElevationRecord)
    (location start_point end_point : Option String) (r : Route)
    (hsp : truthy start_point = true) (hep : truthy end_point = true)
    (hr : find_route_fuzzy (start_point.getD "") (end_point.getD "") routesDB = some r) :
    (r.distance_km = 0 →
      get_elevation_profile routesDB elevDB location start_point end_point =
        .err ("Route from " ++ start_point.getD "" ++ " to " ++ end_point.getD "" ++
          " found but missing waypoints or distance data.")) ∧
    (∀ o : RouteElevationOutput,
      get_elevation_profile routesDB elevDB location start_point end_point =
        .ok (.routeProfile o) →
      o.average_gradient_m_per_km =
        (if 0 < o.distance_km then o.total_elevation_gain / o.distance_km else 0) ∧
      o.distance_km = r.distance_km) := by
  have hand : (truthy start_point && truthy end_point) = true := by rw [hsp, hep]; rfl
  constructor
  · intro h0
    unfold get_elevation_profile
    rw [if_pos hand]
    simp only [hr]
    have hcond : (r.waypoints.isEmpty || decide (r.distance_km = 0)) = true := by
      rw [h0]
      simp
    rw [if_pos hcond]
    rfl
  · intro o hok
    unfold get_elevation_profile at hok
    rw [if_pos hand] at hok
    simp only [hr] at hok
    split at hok
    · cases hok
    · split at hok
      · cases hok
      · split at hok
        · cases hok
        · rw [ToolResult.ok.injEq, ElevPayload.routeProfile.injEq] at hok
          subst hok
          exact ⟨rfl, rfl⟩

unseal Rat.mul Rat.inv Rat.add Rat.sub in
/-- C5 witness: the amended theorem applied to a concrete distance-0 route. -/
theorem claim_C5_witness :
    get_elevation_profile [⟨"x", "y", 0, [⟨"w", 0⟩]⟩] [] none (some "x") (some "y") =
      .err ("Route from " ++ (some "x").getD "" ++ " to " ++ (some "y").getD "" ++
        " found but missing waypoints or distance data.") :=
  (claim_C5_amended [⟨"x", "y", 0, [⟨"w", 0⟩]⟩] [] none (some "x") (some "y")
    ⟨"x", "y", 0, [⟨"w", 0⟩]⟩ rfl rfl rfl).1 rfl

/-- C1: for positive total nights and a pattern parsing to a positive period
N, `calculate_accommodation_schedule` succeeds with a schedule keyed exactly
by nights 1..total, each night mapped to the special type exactly when N
divides it, and `special_nights` the increasing list of multiples of N in
range; a period exceeding the total is a success with no special nights. -/
theorem claim_C1 (total_nights : Int) (pat acc dft : String) (N : Nat)
    (h1 : 0 < total_nights) (h2 : parse_pattern pat = some N) (h3 : 0 < N) :
    ∃ out, calculate_accommodation_schedule total_nights pat acc dft = .ok out ∧
      out.schedule.map Prod.fst = List.range' 1 total_nights.toNat ∧
      (∀ p ∈ out.schedule, p.2 = if p.1 % N = 0 then acc else dft) ∧
      (∀ m : Nat, m ∈ out.special_nights ↔
        1 ≤ m ∧ (m : Int) ≤ total_nights ∧ N ∣ m) ∧
      out.special_nights.Pairwise (· < ·) ∧
      (total_nights < (N : Int) → out.special_nights = []) := by
  unfold calculate_accommodation_schedule
  simp only [h2]
  rw [if_neg (by omega : ¬ N ≤ 0), if_neg (not_le.mpr h1)]
  have hcast : ((total_nights.toNat : Int)) = total_nights :=
    Int.toNat_of_nonneg (by omega)
  refine ⟨_, rfl, ?_, ?_, ?_, ?_, ?_⟩
  · dsimp only
    rw [List.map_map]
    show (List.range total_nights.toNat).map (fun i => i + 1) = _
    rw [List.range'_eq_map_range]
    apply List.map_congr_left
    intro i _
    omega
  · dsimp only
    intro p hp
    obtain ⟨i, hi, rfl⟩ := List.mem_map.mp hp
    have hin : i < total_nights.toNat := List.mem_range.mp hi
    dsimp only
    have hcont :
        ((((List.range (total_nights.toNat / N)).map (fun k => (k + 1) * N)).filter
          (fun night => night ≤ total_nights.toNat)).contains (i + 1)) = true ↔
          (i + 1) % N = 0 := by
      rw [contains_iff_mem_nat, special_list_filter_id _ N h3,
        mem_special_list _ N h3 (i + 1)]
      constructor
      · rintro ⟨_, _, hd⟩
        exact Nat.dvd_iff_mod_eq_zero.mp hd
      · intro hmod
        exact ⟨by omega, by omega, Nat.dvd_iff_mod_eq_zero.mpr hmod⟩
    by_cases hz : (i + 1) % N = 0
    · rw [if_pos (hcont.mpr hz), if_pos hz]
    · rw [if_neg (fun hc => hz (hcont.mp hc)), if_neg hz]
  · dsimp only
    intro m
    rw [special_list_filter_id _ N h3, mem_special_list _ N h3 m]
    constructor
    · rintro ⟨ha, hb, hc⟩
      exact ⟨ha, by omega, hc⟩
    · rintro ⟨ha, hb, hc⟩
      exact ⟨ha, by omega, hc⟩
  · dsimp only
    rw [special_list_filter_id _ N h3, List.pairwise_map]
    exact List.Pairwise.imp
      (fun hab => mul_lt_mul_of_pos_right (by omega) h3)
      (List.pairwise_lt_range _)
  · dsimp only
    intro hlt
    rw [special_list_filter_id _ N h3,
      Nat.div_eq_of_lt (by omega : total_nights.toNat < N)]
    rfl

/-- C1 witness: a 10-night trip with pattern `every 4th night`. -/
theorem claim_C1_witness :
    ∃ out,
      calculate_accommodation_schedule 10 "every 4th night" "hostel" "camping" = .ok out ∧
      out.schedule.map Prod.fst = List.range' 1 (10 : Int).toNat ∧
      (∀ p ∈ out.schedule, p.2 = if p.1 % 4 = 0 then "hostel" else "camping") ∧
      (∀ m : Nat, m ∈ out.special_nights ↔
        1 ≤ m ∧ (m : Int) ≤ 10 ∧ 4 ∣ m) ∧
      out.special_nights.Pairwise (· < ·) ∧
      ((10 : Int) < ((4 : Nat) : Int) → out.special_nights = []) :=
  claim_C1 10 "every 4th night" "hostel" "camping" 4 (by norm_num) rfl (by norm_num)


/-! ## Helper lemmas for the budget aggregator -/

theorem filterMap_eq_map_of_some {α β : Type} (l : List α) (f : α → Option β) (g : α → β)
    (h : ∀ x ∈ l, f x = some (g x)) : l.filterMap f = l.map g := by
  induction l with
  | nil => rfl
  | cons a as ih =>
    rw [List.filterMap_cons, h a (List.mem_cons_self a as), List.map_cons,
      ih (fun x hx => h x (List.mem_cons_of_mem _ hx))]

theorem map_fst_apply_zip {α β γ : Type} (f : α → γ) :
    ∀ (l₁ : List α) (l₂ : List β), l₂.length = l₁.length →
      (l₁.zip l₂).map (fun p => f p.1) = l₁.map f := by
  intro l₁
  induction l₁ with
  | nil => intro l₂ _; rfl
  | cons a as ih =>
    intro l₂ h
    cases l₂ with
    | nil => simp at h
    | cons b bs =>
      simp only [List.zip_cons_cons, List.map_cons]
      rw [ih bs (by simpa using h)]

/-- A stop with a non-empty waypoint name always contributes a breakdown item
whose night count is `nights_per_stop` except at the last stop, which gets
the remainder. -/
theorem map_nights_stopItem (accsDB : List Accommodation) (pref : Option String)
    (d nps : Int) (ns i : Nat) (w : Waypoint) (hname : ¬ w.name = "") :
    (stopItem accsDB pref d nps ns i w).map (fun it => it.nights) =
      some (if i < ns - 1 then nps else d - nps * ((ns : Int) - 1)) := by
  unfold stopItem
  rw [if_neg hname]
  dsimp only
  split <;> rfl

/-- The night counts of the breakdown built by `buildBudget` for a route with
at least 2 waypoints, all stop names non-empty. -/
theorem buildBudget_breakdown_nights (accsDB : List Accommodation) (visaDB : List VisaRule)
    (sp ep : String) (r : Route) (pref dest nation : Option String) (d : Int)
    (hw : 1 < r.waypoints.length)
    (hn : ∀ w ∈ r.waypoints.dropLast, ¬ w.name = "") :
    (buildBudget accsDB visaDB sp ep r pref dest nation d).accommodation.breakdown.map
        (fun it => it.nights) =
      List.replicate (r.waypoints.length - 1 - 1)
          (max 1 (Int.fdiv d ((r.waypoints.length - 1 : Nat) : Int))) ++
        [d - max 1 (Int.fdiv d ((r.waypoints.length - 1 : Nat) : Int)) *
          (((r.waypoints.length - 1 : Nat) : Int) - 1)] := by
  unfold buildBudget
  dsimp only
  rw [if_pos hw]
  dsimp only
  rw [List.map_filterMap]
  rw [filterMap_eq_map_of_some _ _
    (fun p : Nat × Waypoint =>
      if p.1 < r.waypoints.length - 1 - 1 then
        max 1 (Int.fdiv d ((r.waypoints.length - 1 : Nat) : Int))
      else d - max 1 (Int.fdiv d ((r.waypoints.length - 1 : Nat) : Int)) *
        (((r.waypoints.length - 1 : Nat) : Int) - 1))
    (fun p hp =>
      map_nights_stopItem accsDB pref d
        (max 1 (Int.fdiv d ((r.waypoints.length - 1 : Nat) : Int)))
        (r.waypoints.length - 1) p.1 p.2
        (hn p.2 (List.of_mem_zip hp).2))]
  rw [map_fst_apply_zip
    (fun i : Nat =>
      if i < r.waypoints.length - 1 - 1 then
        max 1 (Int.fdiv d ((r.waypoints.length - 1 : Nat) : Int))
      else d - max 1 (Int.fdiv d ((r.waypoints.length - 1 : Nat) : Int)) *
        (((r.waypoints.length - 1 : Nat) : Int) - 1))
    (List.range (r.waypoints.length - 1)) r.waypoints.dropLast
    (by simp [List.length_dropLast])]
  exact range_map_if_last (r.waypoints.length - 1) (by omega) _ _

/-- C9: an explicitly supplied `duration_days` undergoes no validation: with
a resolvable route, a call with `duration_days ≤ 0` still returns a
structured budget whose day-proportional components (food, miscellaneous,
and — in the flat accommodation case — accommodation) are scaled by the
non-positive duration, rather than an invalid-input string. -/
theorem claim_C9 (routesDB : List Route) (accsDB : List Accommodation)
    (visaDB : List VisaRule) (sp ep : String) (d : Int) (daily : Option ℚ)
    (pref dest nation : Option String) (r : Route)
    (hr : find_route_fuzzy sp ep routesDB = some r) (hd : d ≤ 0) :
    (∃ out, estimate_budget routesDB accsDB visaDB sp ep (some d) daily pref dest nation =
        .ok out ∧
      out.estimated_days = d ∧
      out.food.total_eur = DAILY_FOOD_COST * (d : ℚ) ∧
      out.food.days = d ∧
      out.other_expenses.miscellaneous_eur = MISCELLANEOUS_PER_DAY * (d : ℚ) ∧
      (r.waypoints.length ≤ 1 →
        out.accommodation.total_eur = estPrice pref * (d : ℚ))) ∧
    (∀ daily2 : Option ℚ, (∀ k, daily2 = some k → k ≤ 0) →
      estimate_budget routesDB accsDB visaDB sp ep none daily2 pref dest nation =
        .err ("Error: Either duration_days or daily_average_km must be provided " ++
          "to calculate the budget.")) := by
  constructor
  · unfold estimate_budget
    simp only [hr]
    refine ⟨_, rfl, rfl, rfl, rfl, rfl, ?_⟩
    intro hlen
    unfold buildBudget
    dsimp only
    rw [if_neg (not_lt.mpr hlen)]
  · intro daily2 hk
    unfold estimate_budget
    simp only [hr]
    have hres : resolveDuration none daily2 r.distance_km = none := by
      unfold resolveDuration
      cases daily2 with
      | none => rfl
      | some k => simp only [if_pos (hk k rfl)]
    simp only [hres]

unseal Rat.mul Rat.inv Rat.add Rat.sub in
/-- C9 witness: a single-waypoint route with `duration_days = -2`. -/
theorem claim_C9_witness :
    estimate_budget [⟨"a", "b", 100, []⟩] [] [] "a" "b" none none none none none =
      .err ("Error: Either duration_days or daily_average_km must be provided " ++
        "to calculate the budget.") :=
  (claim_C9 [⟨"a", "b", 100, []⟩] [] [] "a" "b" (-2) none none none none
    ⟨"a", "b", 100, []⟩ (by decide) (by norm_num)).2 none (fun k h => by cases h)

unseal Rat.mul Rat.inv Rat.add Rat.sub in
/-- C2 counterexample: a resolvable route with 3 waypoints whose first stop
has an empty name; that stop is skipped by the loop's `continue`, so the
breakdown night counts sum to 3, not the supplied duration 5 — the claim as
stated is false. -/
theorem claim_C2_counterexample :
    estimate_budget [⟨"a", "c", 100, [⟨"", 0⟩, ⟨"x", 50⟩, ⟨"c", 100⟩]⟩] [] [] "a" "c"
        (some 5) none none none none =
      .ok (buildBudget [] [] "a" "c" ⟨"a", "c", 100, [⟨"", 0⟩, ⟨"x", 50⟩, ⟨"c", 100⟩]⟩
        none none none 5) ∧
    (buildBudget [] [] "a" "c" ⟨"a", "c", 100, [⟨"", 0⟩, ⟨"x", 50⟩, ⟨"c", 100⟩]⟩
        none none none 5).estimated_days = 5 ∧
    ((buildBudget [] [] "a" "c" ⟨"a", "c", 100, [⟨"", 0⟩, ⟨"x", 50⟩, ⟨"c", 100⟩]⟩
        none none none 5).accommodation.breakdown.map (fun it => it.nights)).sum = 3 := by
  refine ⟨by decide, by decide, by decide⟩

/-- C2 (amended): for every resolvable route with at least 2 waypoints whose
stop names are all non-empty, each of the first `num_stops - 1` stops is
assigned `max 1 (duration fdiv num_stops)` nights and the final stop the
remainder, so the breakdown night counts sum to the duration exactly
(stops with empty names are skipped by the loop and break this). -/
theorem claim_C2_amended (routesDB : List Route) (accsDB : List Accommodation)
    (visaDB : List VisaRule) (sp ep : String) (dur : Option Int) (daily : Option ℚ)
    (pref dest nation : Option String) (r : Route) (out : EstimateBudgetOutput)
    (hr : find_route_fuzzy sp ep routesDB = some r)
    (hw : 1 < r.waypoints.length)
    (hn : ∀ w ∈ r.waypoints.dropLast, ¬ w.name = "")
    (hout : estimate_budget routesDB accsDB visaDB sp ep dur daily pref dest nation =
      .ok out) :
    out.accommodation.breakdown.map (fun it => it.nights) =
      List.replicate (r.waypoints.length - 1 - 1)
          (max 1 (Int.fdiv out.estimated_days ((r.waypoints.length - 1 : Nat) : Int))) ++
        [out.estimated_days -
          max 1 (Int.fdiv out.estimated_days ((r.waypoints.length - 1 : Nat) : Int)) *
            (((r.waypoints.length - 1 : Nat) : Int) - 1)] ∧
    (out.accommodation.breakdown.map (fun it => it.nights)).sum = out.estimated_days := by
  unfold estimate_budget at hout
  simp only [hr] at hout
  cases hres : resolveDuration dur daily r.distance_km with
  | none =>
    rw [hres] at hout
    cases hout
  | some d =>
    rw [hres] at hout
    rw [ToolResult.ok.injEq] at hout
    subst hout
    have hdays : (buildBudget accsDB visaDB sp ep r pref dest nation d).estimated_days = d :=
      rfl
    rw [hdays]
    have hmap := buildBudget_breakdown_nights accsDB visaDB sp ep r pref dest nation d hw hn
    refine ⟨hmap, ?_⟩
    rw [hmap, List.sum_append, List.sum_replicate, List.sum_cons, List.sum_nil]
    have hns : 1 ≤ r.waypoints.length - 1 := by omega
    rw [nsmul_eq_mul]
    push_cast [Nat.cast_sub hns]
    ring

unseal Rat.mul Rat.inv Rat.add Rat.sub in
/-- C2 witness: the amended claim at a concrete 3-waypoint route with all
stop names non-empty and duration 5. -/
theorem claim_C2_witness :
    (buildBudget [] [] "a" "c" ⟨"a", "c", 100, [⟨"a", 0⟩, ⟨"x", 50⟩, ⟨"c", 100⟩]⟩
        none none none 5).accommodation.breakdown.map (fun it => it.nights) =
      List.replicate
          ((⟨"a", "c", 100, [⟨"a", 0⟩, ⟨"x", 50⟩, ⟨"c", 100⟩]⟩ : Route).waypoints.length
            - 1 - 1)
          (max 1 (Int.fdiv
            (buildBudget [] [] "a" "c" ⟨"a", "c", 100, [⟨"a", 0⟩, ⟨"x", 50⟩, ⟨"c", 100⟩]⟩
              none none none 5).estimated_days
            (((⟨"a", "c", 100, [⟨"a", 0⟩, ⟨"x", 50⟩, ⟨"c", 100⟩]⟩ : Route).waypoints.length
              - 1 : Nat) : Int))) ++
        [(buildBudget [] [] "a" "c" ⟨"a", "c", 100, [⟨"a", 0⟩, ⟨"x", 50⟩, ⟨"c", 100⟩]⟩
            none none none 5).estimated_days -
          max 1 (Int.fdiv
            (buildBudget [] [] "a" "c" ⟨"a", "c", 100, [⟨"a", 0⟩, ⟨"x", 50⟩, ⟨"c", 100⟩]⟩
              none none none 5).estimated_days
            (((⟨"a", "c", 100, [⟨"a", 0⟩, ⟨"x", 50⟩, ⟨"c", 100⟩]⟩ : Route).waypoints.length
              - 1 : Nat) : Int)) *
            ((((⟨"a", "c", 100, [⟨"a", 0⟩, ⟨"x", 50⟩, ⟨"c", 100⟩]⟩ : Route).waypoints.length
              - 1 : Nat) : Int) - 1)] ∧
    ((buildBudget [] [] "a" "c" ⟨"a", "c", 100, [⟨"a", 0⟩, ⟨"x", 50⟩, ⟨"c", 100⟩]⟩
        none none none 5).accommodation.breakdown.map (fun it => it.nights)).sum =
      (buildBudget [] [] "a" "c" ⟨"a", "c", 100, [⟨"a", 0⟩, ⟨"x", 50⟩, ⟨"c", 100⟩]⟩
        none none none 5).estimated_days :=
  claim_C2_amended [⟨"a", "c", 100, [⟨"a", 0⟩, ⟨"x", 50⟩, ⟨"c", 100⟩]⟩] [] [] "a" "c"
    (some 5) none none none none ⟨"a", "c", 100, [⟨"a", 0⟩, ⟨"x", 50⟩, ⟨"c", 100⟩]⟩
    (buildBudget [] [] "a" "c" ⟨"a", "c", 100, [⟨"a", 0⟩, ⟨"x", 50⟩, ⟨"c", 100⟩]⟩
      none none none 5)
    (by decide) (by decide) (by decide) (by decide)

/-- C4: `find_route_fuzzy` returns `none` when no route has both normalized
endpoint similarities ≥ 70, and otherwise the first route in list order
attaining the maximum mean of the two endpoint similarities among qualifying
routes; identical normalized strings score 100, so when a route's normalized
endpoints equal the query's, such an exact-match route is returned. -/
theorem claim_C4 (start_point end_point : String) (routes : List Route) :
    (find_route_fuzzy start_point end_point routes =
      ((routes.filter (qualifiesRoute start_point end_point)).filter
        (isBestAmong start_point end_point
          (routes.filter (qualifiesRoute start_point end_point)))).head?) ∧
    (∀ t : String, fuzzScore t t = 100) ∧
    ((∃ r ∈ routes, normalize_location r.start_point = normalize_location start_point ∧
        normalize_location r.end_point = normalize_location end_point) →
      ∃ rbest, find_route_fuzzy start_point end_point routes = some rbest ∧
        normalize_location rbest.start_point = normalize_location start_point ∧
        normalize_location rbest.end_point = normalize_location end_point) := by
  refine ⟨find_route_fuzzy_eq _ _ _, fuzzScore_self, ?_⟩
  rintro ⟨r0, hr0, hs0, he0⟩
  have hstart : startSim start_point r0 = 100 := by
    unfold startSim
    rw [hs0, fuzzScore_self]
  have hend : endSim end_point r0 = 100 := by
    unfold endSim
    rw [he0, fuzzScore_self]
  have hq0 : qualifiesRoute start_point end_point r0 = true :=
    (qualifiesRoute_true_iff _ _ _).mpr
      ⟨by rw [hstart]; norm_num [SIMILARITY_THRESHOLD],
        by rw [hend]; norm_num [SIMILARITY_THRESHOLD]⟩
  have havg0 : avgSim start_point end_point r0 = 100 := by
    unfold avgSim
    rw [hstart, hend]
    norm_num
  have hr0q : r0 ∈ routes.filter (qualifiesRoute start_point end_point) :=
    List.mem_filter.mpr ⟨hr0, hq0⟩
  have hbest0 : isBestAmong start_point end_point
      (routes.filter (qualifiesRoute start_point end_point)) r0 = true := by
    unfold isBestAmong
    rw [List.all_eq_true]
    intro y _
    apply decide_eq_true
    rw [havg0]
    exact avgSim_le_100 _ _ y
  have hmem2 : r0 ∈ (routes.filter (qualifiesRoute start_point end_point)).filter
      (isBestAmong start_point end_point
        (routes.filter (qualifiesRoute start_point end_point))) :=
    List.mem_filter.mpr ⟨hr0q, hbest0⟩
  rcases hfl : (routes.filter (qualifiesRoute start_point end_point)).filter
      (isBestAmong start_point end_point
        (routes.filter (qualifiesRoute start_point end_point))) with _ | ⟨rb, rest⟩
  · rw [hfl] at hmem2
    cases hmem2
  · have hfind : find_route_fuzzy start_point end_point routes = some rb := by
      rw [find_route_fuzzy_eq, hfl, List.head?_cons]
    have hrbmem : rb ∈ (routes.filter (qualifiesRoute start_point end_point)).filter
        (isBestAmong start_point end_point
          (routes.filter (qualifiesRoute start_point end_point))) := by
      rw [hfl]
      exact List.mem_cons_self _ _
    obtain ⟨hrbq, hrbbest⟩ := List.mem_filter.mp hrbmem
    have hall := hrbbest
    unfold isBestAmong at hall
    rw [List.all_eq_true] at hall
    have h1 : avgSim start_point end_point r0 ≤ avgSim start_point end_point rb :=
      of_decide_eq_true (hall r0 hr0q)
    have h2 : avgSim start_point end_point rb ≤ 100 := avgSim_le_100 _ _ _
    have havgb : avgSim start_point end_point rb = 100 := by
      rw [havg0] at h1
      linarith
    have hle1 := fuzzScore_le_100 (normalize_location start_point)
      (normalize_location rb.start_point)
    have hle2 := fuzzScore_le_100 (normalize_location end_point)
      (normalize_location rb.end_point)
    unfold avgSim startSim endSim at havgb
    have hsb : fuzzScore (normalize_location start_point)
        (normalize_location rb.start_point) = 100 := by linarith
    have heb : fuzzScore (normalize_location end_point)
        (normalize_location rb.end_point) = 100 := by linarith
    exact ⟨rb, hfind, (eq_of_fuzzScore_eq_100 _ _ hsb).symm,
      (eq_of_fuzzScore_eq_100 _ _ heb).symm⟩

/-- C4 witness: an exact-match route list is resolved to the exact match. -/
theorem claim_C4_witness :
    ∃ rbest, find_route_fuzzy "Paris" "London" [⟨"Paris", "London", 450, []⟩] =
        some rbest ∧
      normalize_location rbest.start_point = normalize_location "Paris" ∧
      normalize_location rbest.end_point = normalize_location "London" :=
  (claim_C4 "Paris" "London" [⟨"Paris", "London", 450, []⟩]).2.2
    ⟨⟨"Paris", "London", 450, []⟩, List.mem_cons_self _ _, rfl, rfl⟩

/-! ## Helper lemmas for the accommodation finder -/

theorem lookupStr_mem {β : Type} : ∀ (d : List (String × β)) (k : String) (v : β),
    lookupStr d k = some v → (k, v) ∈ d
  | [], _, _, h => by cases h
  | p :: ps, k, v, h => by
    rw [lookupStr] at h
    by_cases hk : p.1 = k
    · rw [if_pos hk] at h
      injection h with h2
      have hp : p = (k, v) := by
        cases p
        simp_all
      rw [← hp]
      exact List.mem_cons_self _ _
    · rw [if_neg hk] at h
      exact List.mem_cons_of_mem _ (lookupStr_mem ps k v h)

theorem lookupStr_append {β : Type} : ∀ (d e : List (String × β)) (k : String),
    lookupStr (d ++ e) k =
      (match lookupStr d k with
        | some v => some v
        | none => lookupStr e k)
  | [], _, _ => rfl
  | p :: ps, e, k => by
    rw [List.cons_append, lookupStr, lookupStr]
    by_cases hk : p.1 = k
    · rw [if_pos hk, if_pos hk]
    · rw [if_neg hk, if_neg hk]
      exact lookupStr_append ps e k

theorem lookupStr_map_update (d : List (String × ℚ)) (k : String) (v : ℚ) (q : String) :
    lookupStr (d.map (fun p => if p.1 = k then (k, v) else p)) q =
      (lookupStr d q).map (fun w => if q = k then v else w) := by
  induction d with
  | nil => rfl
  | cons p ps ih =>
    rw [List.map_cons, lookupStr, lookupStr]
    by_cases hpk : p.1 = k
    · rw [if_pos hpk]
      by_cases hq : k = q
      · rw [if_pos hq, if_pos (hpk.trans hq), Option.map_some']
        rw [if_pos hq.symm]
      · rw [if_neg hq, if_neg (fun hc : p.1 = q => hq (hpk.symm.trans hc))]
        exact ih
    · rw [if_neg hpk]
      by_cases hq : p.1 = q
      · rw [if_pos hq, if_pos hq, Option.map_some']
        rw [if_neg (fun hc : q = k => hpk (hq.trans hc))]
      · rw [if_neg hq, if_neg hq]
        exact ih

theorem insertMaxSim_entries (nl : String) (d : List (String × ℚ)) (k : String) (v : ℚ)
    (hv : v = fuzzScore nl k) (hd : ∀ p ∈ d, p.2 = fuzzScore nl p.1) :
    ∀ p ∈ insertMaxSim d k v, p.2 = fuzzScore nl p.1 := by
  cases hlk : lookupStr d k with
  | none =>
    simp only [insertMaxSim, hlk]
    intro p hp
    rcases List.mem_append.mp hp with h | h
    · exact hd p h
    · have hpv : p = (k, v) := List.mem_singleton.mp h
      rw [hpv]
      exact hv
  | some w =>
    simp only [insertMaxSim, hlk]
    by_cases hwv : w < v
    · rw [if_pos hwv]
      intro p hp
      obtain ⟨q, hq, rfl⟩ := List.mem_map.mp hp
      by_cases hqk : q.1 = k
      · rw [if_pos hqk]
        exact hv
      · rw [if_neg hqk]
        exact hd q hq
    · rw [if_neg hwv]
      exact hd

theorem insertMaxSim_lookup_isSome (d : List (String × ℚ)) (k : String) (v : ℚ) (q : String)
    (h : (lookupStr d q).isSome = true ∨ q = k) :
    (lookupStr (insertMaxSim d k v) q).isSome = true := by
  cases hlk : lookupStr d k with
  | none =>
    simp only [insertMaxSim, hlk]
    rw [lookupStr_append]
    cases hq : lookupStr d q with
    | some w => rfl
    | none =>
      rcases h with h | h
      · rw [hq] at h
        cases h
      · subst h
        rw [lookupStr, if_pos rfl]
        rfl
  | some w =>
    simp only [insertMaxSim, hlk]
    by_cases hwv : w < v
    · rw [if_pos hwv, lookupStr_map_update]
      cases hq : lookupStr d q with
      | some u => rfl
      | none =>
        rcases h with h | h
        · rw [hq] at h
          cases h
        · subst h
          rw [hlk] at hq
          cases hq
    · rw [if_neg hwv]
      rcases h with h | h
      · exact h
      · subst h
        rw [hlk]
        rfl

theorem simDict_entries_aux (nl ft : String) :
    ∀ (accs : List Accommodation) (d : List (String × ℚ)),
      (∀ p ∈ d, p.2 = fuzzScore nl p.1) →
      ∀ p ∈ accs.foldl
          (fun d a =>
            if accMatches nl ft a then
              insertMaxSim d (normalize_location a.location) (locationSim nl a)
            else d) d,
        p.2 = fuzzScore nl p.1
  | [], _, hd => hd
  | a :: as, d, hd => by
    rw [List.foldl_cons]
    apply simDict_entries_aux nl ft as
    by_cases hm : accMatches nl ft a = true
    · rw [if_pos hm]
      exact insertMaxSim_entries nl d _ _ rfl hd
    · rw [if_neg hm]
      exact hd

theorem simDict_isSome_aux (nl ft : String) :
    ∀ (accs : List Accommodation) (d : List (String × ℚ)) (q : String),
      ((lookupStr d q).isSome = true ∨
        ∃ a ∈ accs, accMatches nl ft a = true ∧ normalize_location a.location = q) →
      (lookupStr
        (accs.foldl
          (fun d a =>
            if accMatches nl ft a then
              insertMaxSim d (normalize_location a.location) (locationSim nl a)
            else d) d) q).isSome = true
  | [], _, q, h => by
    rcases h with h | ⟨a, ha, _⟩
    · exact h
    · exact absurd ha (List.not_mem_nil a)
  | a :: as, d, q, h => by
    rw [List.foldl_cons]
    apply simDict_isSome_aux nl ft as
    rcases h with h | ⟨b, hb, hbm, hbq⟩
    · left
      by_cases hm : accMatches nl ft a = true
      · rw [if_pos hm]
        exact insertMaxSim_lookup_isSome _ _ _ _ (Or.inl h)
      · rw [if_neg hm]
        exact h
    · rcases List.mem_cons.mp hb with rfl | hb'
      · left
        rw [if_pos hbm]
        exact insertMaxSim_lookup_isSome _ _ _ _ (Or.inr hbq.symm)
      · right
        exact ⟨b, hb', hbm, hbq⟩

/-- The similarity dict resolves every matching candidate's normalized
location to exactly its fuzzy similarity (all entries sharing a location key
have equal similarity, so the max recorded is that similarity). -/
theorem simDict_lookup_of_matches (nl ft : String) (accs : List Accommodation)
    (a : Accommodation) (ha : a ∈ accs) (hm : accMatches nl ft a = true) :
    lookupStr (simDict nl ft accs) (normalize_location a.location) =
      some (locationSim nl a) := by
  unfold simDict
  have hsome := simDict_isSome_aux nl ft accs [] (normalize_location a.location)
    (Or.inr ⟨a, ha, hm, rfl⟩)
  obtain ⟨v, hv⟩ := Option.isSome_iff_exists.mp hsome
  have hmem := lookupStr_mem _ _ _ hv
  have hval := simDict_entries_aux nl ft accs []
    (by intro p hp; exact absurd hp (List.not_mem_nil p)) _ hmem
  have hval2 : v = fuzzScore nl (normalize_location a.location) := hval
  rw [hv, hval2]
  rfl

theorem accSortLe_total (nl : String) (d : List (String × ℚ)) (a b : Accommodation) :
    accSortLe nl d a b ∨ accSortLe nl d b a := by
  unfold accSortLe
  rcases lt_trichotomy ((lookupStr d (normalize_location a.location)).getD 0)
    ((lookupStr d (normalize_location b.location)).getD 0) with h | h | h
  · right; left; exact h
  · rcases le_total a.price_per_night b.price_per_night with hp | hp
    · left; right; exact ⟨h, hp⟩
    · right; right; exact ⟨h.symm, hp⟩
  · left; left; exact h

theorem accSortLe_trans (nl : String) (d : List (String × ℚ)) (a b c : Accommodation)
    (h1 : accSortLe nl d a b) (h2 : accSortLe nl d b c) : accSortLe nl d a c := by
  unfold accSortLe at h1 h2 ⊢
  rcases h1 with h1 | ⟨h1e, h1p⟩ <;> rcases h2 with h2 | ⟨h2e, h2p⟩
  · left; linarith
  · left; linarith
  · left; linarith
  · right; exact ⟨by linarith, le_trans h1p h2p⟩

/-- C6: `find_accommodations` returns exactly the accommodations whose
location similarity is ≥ 70 and whose type matches the normalized filter
(camp/camping→camping, hostels→hostel, hotels→hotel, unrecognized→all,
without raising), ordered by descending location similarity then ascending
price. -/
theorem claim_C6 (location accommodation_type : String) (accs : List Accommodation) :
    ((find_accommodations location accommodation_type accs).Perm
      (accs.filter (accMatches (normalize_location location)
        (type_mapping (pyStrip (pyLower accommodation_type)))))) ∧
    ((find_accommodations location accommodation_type accs).Pairwise
      (fun a b =>
        locationSim (normalize_location location) b <
            locationSim (normalize_location location) a ∨
          (locationSim (normalize_location location) a =
              locationSim (normalize_location location) b ∧
            a.price_per_night ≤ b.price_per_night))) ∧
    (∀ s : String, pyStrip (pyLower s) ∉
        (["camping", "camp", "hostel", "hostels", "hotel", "hotels", "all"] : List String) →
      type_mapping (pyStrip (pyLower s)) = "all") := by
  refine ⟨?_, ?_, ?_⟩
  · unfold find_accommodations
    exact List.perm_insertionSort _ _
  · unfold find_accommodations
    have hsorted := by
      haveI : IsTotal Accommodation (accSortLe (normalize_location location)
          (simDict (normalize_location location)
            (type_mapping (pyStrip (pyLower accommodation_type))) accs)) :=
        ⟨accSortLe_total _ _⟩
      haveI : IsTrans Accommodation (accSortLe (normalize_location location)
          (simDict (normalize_location location)
            (type_mapping (pyStrip (pyLower accommodation_type))) accs)) :=
        ⟨accSortLe_trans _ _⟩
      exact List.sorted_insertionSort
        (accSortLe (normalize_location location)
          (simDict (normalize_location location)
            (type_mapping (pyStrip (pyLower accommodation_type))) accs))
        (accs.filter (accMatches (normalize_location location)
          (type_mapping (pyStrip (pyLower accommodation_type)))))
    refine List.Pairwise.imp_of_mem (fun {a b} ha hb hab => ?_) hsorted
    have ha' : a ∈ accs.filter (accMatches (normalize_location location)
        (type_mapping (pyStrip (pyLower accommodation_type)))) :=
      ((List.perm_insertionSort _ _).mem_iff).mp ha
    have hb' : b ∈ accs.filter (accMatches (normalize_location location)
        (type_mapping (pyStrip (pyLower accommodation_type)))) :=
      ((List.perm_insertionSort _ _).mem_iff).mp hb
    obtain ⟨hams, hamq⟩ := List.mem_filter.mp ha'
    obtain ⟨hbms, hbmq⟩ := List.mem_filter.mp hb'
    have hla := simDict_lookup_of_matches (normalize_location location)
      (type_mapping (pyStrip (pyLower accommodation_type))) accs a hams hamq
    have hlb := simDict_lookup_of_matches (normalize_location location)
      (type_mapping (pyStrip (pyLower accommodation_type))) accs b hbms hbmq
    unfold accSortLe at hab
    rw [hla, hlb] at hab
    simpa using hab
  · intro s hs
    simp only [List.mem_cons, List.not_mem_nil, or_false, not_or] at hs
    obtain ⟨h1, h2, h3, h4, h5, h6, h7⟩ := hs
    unfold type_mapping
    rw [if_neg h1, if_neg h2, if_neg h3, if_neg h4, if_neg h5, if_neg h6, if_neg h7]

/-- C6 witness: a hotel in Paris against a lowercase query and an
unrecognized type filter. -/
theorem claim_C6_witness :
    ((find_accommodations "paris" "weird"
        [⟨"H1", "hotel", "Paris", 50, "EUR"⟩]).Perm
      ([⟨"H1", "hotel", "Paris", 50, "EUR"⟩].filter
        (accMatches (normalize_location "paris")
          (type_mapping (pyStrip (pyLower "weird")))))) ∧
    type_mapping (pyStrip (pyLower "weird")) = "all" :=
  ⟨(claim_C6 "paris" "weird" [⟨"H1", "hotel", "Paris", 50, "EUR"⟩]).1,
    (claim_C6 "paris" "weird" [⟨"H1", "hotel", "Paris", 50, "EUR"⟩]).2.2 "weird"
      (by decide)⟩

end CyclingPlanner
